import Mathlib

/-!
# Cart and checkout workflow of the music store backend

A shallow embedding of `internal/bookstore/bookstore.go` (the repository methods
`AddToCart`, `GetCartItemsByStore`, `DeleteProductFromCart`, `Checkout`,
`CheckoutCart`) and of the HTTP handlers of `internal/handlers/book_handlers.go`
that drive them.

Conventions of the embedding:

* the relational store is an explicit state `DB`; a table is the list of its rows in
  insertion order;
* a Go `error` is `Option String`: `none` is `nil`, `some msg` is an error whose text is `msg`;
* every statement sent to the store takes a fault argument: `none` lets the statement run,
  `some e` makes the driver return the error `e`, and a statement that returns an error has
  no effect on the tables;
* `time.Now()` is an argument `now`;
* Go `int` and SQL integers are `Int`; an arithmetic overflow inside the store is one of the
  statement faults.
-/

namespace Musicstore

/-! ## float64 -/

/-- A Go `float64` (IEEE 754 binary64) value: `finite neg m e` is `(-1)^neg * m * 2^e`.
The values produced by the operations below are in canonical form: `m < 2^53`,
`-1074 ≤ e ≤ 971`, and `2^52 ≤ m` unless `e = -1074`. -/
inductive F64 where
  | finite (neg : Bool) (m : Nat) (e : Int)
  | inf (neg : Bool)
  | nan
deriving DecidableEq, Repr

/-- Number of binary digits of `m`, with explicit fuel. -/
def bitLenAux : Nat → Nat → Nat
  | 0, _ => 0
  | fuel + 1, m => if m = 0 then 0 else bitLenAux fuel (m / 2) + 1

/-- Number of binary digits of `m` (0 for 0). -/
def bitLen (m : Nat) : Nat := bitLenAux m m

/-- Round the real number `(-1)^neg * m * 2^e` to the nearest `float64`, ties to even. -/
def F64.round (neg : Bool) (m : Nat) (e : Int) : F64 :=
  if m = 0 then .finite neg 0 (-1074)
  else
    let e1 : Int := max (e + (bitLen m : Int) - 53) (-1074)
    if e1 ≤ e then
      if e1 > 971 then .inf neg else .finite neg (m * 2 ^ (e - e1).toNat) e1
    else
      let k := (e1 - e).toNat
      let q := m / 2 ^ k
      let r := m % 2 ^ k
      let half := 2 ^ (k - 1)
      let q1 := if half < r ∨ (r = half ∧ q % 2 = 1) then q + 1 else q
      let m2 := if q1 = 2 ^ 53 then 2 ^ 52 else q1
      let e2 := if q1 = 2 ^ 53 then e1 + 1 else e1
      if e2 > 971 then .inf neg else .finite neg m2 e2

/-- The `float64` zero `0.0`. -/
def F64.zero : F64 := .finite false 0 (-1074)

/-- The conversion `float64(i)` of a Go `int`. -/
def F64.ofInt (i : Int) : F64 := F64.round (decide (i < 0)) i.natAbs 0

/-- The `float64` product `x * y`. -/
def F64.mul : F64 → F64 → F64
  | .nan, _ => .nan
  | _, .nan => .nan
  | .inf a, .inf b => .inf (a != b)
  | .inf a, .finite b m _ => if m = 0 then .nan else .inf (a != b)
  | .finite a m _, .inf b => if m = 0 then .nan else .inf (a != b)
  | .finite a m1 e1, .finite b m2 e2 => F64.round (a != b) (m1 * m2) (e1 + e2)

/-- The signed integer `(-1)^neg * m * 2^(e - e0)` for `e0 ≤ e`. -/
def F64.scaled (neg : Bool) (m : Nat) (e e0 : Int) : Int :=
  (if neg then -1 else 1) * ((m * 2 ^ (e - e0).toNat : Nat) : Int)

/-- The `float64` sum of the exact values `(-1)^a * m1 * 2^e1` and `(-1)^b * m2 * 2^e2`,
rounded once; an exact zero sum is `-0` only when both terms are negative. -/
def F64.addExact (a : Bool) (m1 : Nat) (e1 : Int) (b : Bool) (m2 : Nat) (e2 : Int) : F64 :=
  let e := min e1 e2
  let s := F64.scaled a m1 e1 e + F64.scaled b m2 e2 e
  if s = 0 then .finite (a && b) 0 (-1074) else F64.round (decide (s < 0)) s.natAbs e

/-- The `float64` sum `x + y`. -/
def F64.add : F64 → F64 → F64
  | .nan, _ => .nan
  | _, .nan => .nan
  | .inf a, .inf b => if a = b then .inf a else .nan
  | .inf a, .finite _ _ _ => .inf a
  | .finite _ _ _, .inf b => .inf b
  | .finite a m1 e1, .finite b m2 e2 => F64.addExact a m1 e1 b m2 e2

/-- The fused multiply-add `x * y + z` with a single rounding, which the Go compiler may
use for `z += x * y`. -/
def F64.fma : F64 → F64 → F64 → F64
  | .finite a m1 e1, .finite b m2 e2, .finite c m3 e3 =>
    F64.addExact (a != b) (m1 * m2) (e1 + e2) c m3 e3
  | .finite _ _ _, .finite _ _ _, z => z
  | x, y, z => F64.add (F64.mul x y) z


/-- The `float64` of a natural number. -/
def natF (n : Nat) : F64 := F64.ofInt (n : Int)


/-! ## Data model -/

/-- A Go `error`: `none` is `nil`, `some msg` has `Error() = msg`. -/
abbrev GoError := Option String

/-- Modelled from the spec: the row type of table `cart(id, store_id, product_id, quantity,
added_at, status, checked_out_at)`; the schema itself is not part of the sources. -/
structure CartLine where
  id : Nat
  store_id : Int
  product_id : Int
  quantity : Int
  added_at : Nat
  status : String
  checked_out_at : Option Nat
deriving DecidableEq, Repr

/-- Modelled from the spec: the row type of table `order_history(id, store_id, product_id,
quantity, status)`; the schema itself is not part of the sources. -/
structure OrderHistoryEntry where
  id : Nat
  store_id : Int
  product_id : Int
  quantity : Int
  status : String
deriving DecidableEq, Repr

/-- `bookstore.Product`, also the row type of table `product_info`; timestamps are
numbers. -/
structure Product where
  ID : Int
  ProductName : String
  Price : F64
  Quantity : Int
  CreatedAt : Nat
  UpdatedAt : Nat
  Category : String
  Brand : String
  Model : String
  StoreID : Int
  IsRecommended : Bool
  ImagePath : String
deriving DecidableEq, Repr

/-- Modelled from the spec: the tables the cart and checkout code works on. `cart_seq` and
`order_seq` are the generators of the `id` columns (the schema is not part of the sources):
an inserted row takes the generator's value and advances it. `product_info` is the read-only
product table joined by `GetCartItemsByStore`. -/
structure DB where
  cart : List CartLine
  order_history : List OrderHistoryEntry
  product_info : List Product
  cart_seq : Nat
  order_seq : Nat

/-- The row filter `store_id = $1 AND product_id = $2 AND status = 'in_cart'`
shared by `AddToCart` and `DeleteProductFromCart`. -/
def isInCartFor (storeID productID : Int) (l : CartLine) : Bool :=
  l.store_id == storeID && l.product_id == productID && l.status == "in_cart"

/-- The row filter `store_id = $1 AND status = 'in_cart'` of `Checkout` and `CheckoutCart`. -/
def isInCartOfStore (storeID : Int) (l : CartLine) : Bool :=
  l.store_id == storeID && l.status == "in_cart"

/-! ## AddToCart -/

/-- Faults of the two statements of `AddToCart`: the `SELECT ... Scan` (an error other than
`sql.ErrNoRows`) and the `UPDATE` or `INSERT` that follows. -/
structure AddToCartFaults where
  select : GoError
  exec : GoError

/-- `UPDATE cart SET quantity = quantity + $1 WHERE store_id = $2 AND product_id = $3 AND
status = 'in_cart'`. -/
def updateQuantity (quantity storeID productID : Int) (cart : List CartLine) : List CartLine :=
  cart.map fun l =>
    if isInCartFor storeID productID l then { l with quantity := l.quantity + quantity } else l

/-- The row an `INSERT INTO cart (store_id, product_id, quantity, added_at, status)` creates:
the id comes from the generator and `checked_out_at` is left NULL. -/
def newCartLine (id : Nat) (storeID productID quantity : Int) (now : Nat) (status : String) :
    CartLine :=
  { id := id, store_id := storeID, product_id := productID, quantity := quantity,
    added_at := now, status := status, checked_out_at := none }

/-- `INSERT INTO cart (store_id, product_id, quantity, added_at, status) VALUES (...)`. -/
def insertCart (db : DB) (storeID productID quantity : Int) (now : Nat)
    (status : String) : DB :=
  { db with
    cart := db.cart ++ [newCartLine db.cart_seq storeID productID quantity now status]
    cart_seq := db.cart_seq + 1 }

/-- `PostgresDatabase.AddToCart`: select the quantity of the existing `in_cart` line
(`QueryRowContext(...).Scan` reads the first matching row, `sql.ErrNoRows` when there is none),
then update every matching line or insert a new one. -/
def PostgresDatabase.AddToCart (db : DB) (storeID productID quantity : Int) (now : Nat)
    (f : AddToCartFaults) : GoError × DB :=
  match f.select with
  | some e => (some ("failed to check existing item in cart: " ++ e), db)
  | none =>
    match (db.cart.filter (isInCartFor storeID productID)).head? with
    | some _ =>
      match f.exec with
      | some e => (some ("failed to update quantity in cart: " ++ e), db)
      | none => (none, { db with cart := updateQuantity quantity storeID productID db.cart })
    | none =>
      match f.exec with
      | some e => (some ("failed to add item to cart: " ++ e), db)
      | none => (none, insertCart db storeID productID quantity now "in_cart")

/-! ## DeleteProductFromCart -/

/-- Faults of `DeleteProductFromCart`: the `DELETE` statement and `result.RowsAffected()`. -/
structure DeleteFaults where
  exec : GoError
  rowsAffected : GoError

/-- `PostgresDatabase.DeleteProductFromCart`: delete the `in_cart` lines of the pair; zero
affected rows is reported as `product not found in cart`. When `RowsAffected` fails the
delete has already been executed. -/
def PostgresDatabase.DeleteProductFromCart (db : DB) (storeID productID : Int) (f : DeleteFaults) :
    GoError × DB :=
  match f.exec with
  | some e => (some ("failed to delete product from cart: " ++ e), db)
  | none =>
    let rowsAffected := (db.cart.filter (isInCartFor storeID productID)).length
    let db1 := { db with cart := db.cart.filter fun l => !isInCartFor storeID productID l }
    match f.rowsAffected with
    | some e => (some ("failed to get affected rows: " ++ e), db1)
    | none =>
      if rowsAffected = 0 then (some "product not found in cart", db1) else (none, db1)

/-! ## Checkout (migrating) -/

/-- A transaction: `base` is the committed state, `work` the state seen by the statements of
the transaction. -/
structure Tx where
  base : DB
  work : DB

/-- `tx.Rollback()`: the committed state is what remains. -/
def Tx.Rollback (tx : Tx) : DB := tx.base

/-- `tx.Commit()`: on success the transaction's state becomes the committed one, on failure
nothing of it does. -/
def Tx.Commit (tx : Tx) (fault : GoError) : GoError × DB :=
  match fault with
  | some e => (some e, tx.base)
  | none => (none, tx.work)

/-- Faults of `Checkout`. `scan k`, `insert k` and `delete k` are the statements of the k-th
loop iteration (from 0); `iter k` is `rows.Next()` ending the iteration with an error after k
rows were delivered, reported by `rows.Err()`. -/
structure CheckoutFaults where
  beginTx : GoError
  query : GoError
  iter : Nat → GoError
  scan : Nat → GoError
  insert : Nat → GoError
  delete : Nat → GoError
  commit : GoError

/-- `INSERT INTO order_history (store_id, product_id, quantity, status) VALUES (...)`. -/
def insertOrder (db : DB) (storeID productID quantity : Int) (status : String) :
    DB :=
  { db with
    order_history := db.order_history ++ [{ id := db.order_seq, store_id := storeID,
                                            product_id := productID, quantity := quantity,
                                            status := status }]
    order_seq := db.order_seq + 1 }

/-- `DELETE FROM cart WHERE id = $1`. -/
def deleteCartById (db : DB) (cartID : Nat) : DB :=
  { db with cart := db.cart.filter fun l => l.id != cartID }

/-- The `for rows.Next()` loop of `Checkout` followed by the `rows.Err()` check, over the rows
`(id, product_id, quantity)` the `SELECT` returned; `k` counts the rows already delivered. An
error path rolls the transaction back and returns the message with the resulting state. -/
def checkoutLoop (f : CheckoutFaults) (storeID : Int) :
    Nat → List (Nat × Int × Int) → Tx → Except (String × DB) (Tx)
  | k, [], tx =>
    match f.iter k with
    | some e => .error ("error occurred while iterating over cart rows: " ++ e, tx.Rollback)
    | none => .ok tx
  | k, (cartID, productID, quantity) :: rows, tx =>
    match f.iter k with
    | some e => .error ("error occurred while iterating over cart rows: " ++ e, tx.Rollback)
    | none =>
      match f.scan k with
      | some e => .error ("failed to scan cart item: " ++ e, tx.Rollback)
      | none =>
        match f.insert k with
        | some e => .error ("failed to insert order into order_history: " ++ e, tx.Rollback)
        | none =>
          let tx1 : Tx :=
            { tx with work := insertOrder tx.work storeID productID quantity "ordered" }
          match f.delete k with
          | some e => .error ("failed to delete cart item: " ++ e, tx1.Rollback)
          | none =>
            checkoutLoop f storeID (k + 1) rows { tx1 with work := deleteCartById tx1.work cartID }

/-- `PostgresDatabase.Checkout`: in one transaction, select the `in_cart` lines of the store,
copy each into `order_history` with status `ordered` and delete it from `cart`, then commit. -/
def PostgresDatabase.Checkout (db : DB) (storeID : Int) (f : CheckoutFaults) : GoError × DB :=
  match f.beginTx with
  | some e => (some ("failed to begin transaction: " ++ e), db)
  | none =>
    let tx : Tx := { base := db, work := db }
    match f.query with
    | some e => (some ("failed to fetch cart items: " ++ e), tx.Rollback)
    | none =>
      let rows := (tx.work.cart.filter (isInCartOfStore storeID)).map
        fun l => (l.id, l.product_id, l.quantity)
      match checkoutLoop f storeID 0 rows tx with
      | .error (msg, db1) => (some msg, db1)
      | .ok tx1 =>
        match tx1.Commit f.commit with
        | (some e, db1) => (some ("failed to commit transaction: " ++ e), db1)
        | (none, db1) => (none, db1)

/-! ## CheckoutCart (status flip) -/

/-- The assignment `SET status = 'checked_out', checked_out_at = $1` on the rows that satisfy
`store_id = $2 AND status = 'in_cart'`. -/
def flipLine (now : Nat) (storeID : Int) (l : CartLine) : CartLine :=
  if isInCartOfStore storeID l then
    { l with status := "checked_out", checked_out_at := some now }
  else l

/-- `UPDATE cart SET status = 'checked_out', checked_out_at = $1 WHERE store_id = $2 AND
status = 'in_cart'`. -/
def flipStatus (now : Nat) (storeID : Int) (cart : List CartLine) : List CartLine :=
  cart.map (flipLine now storeID)

/-- `PostgresDatabase.CheckoutCart`: the single status-flip statement. -/
def PostgresDatabase.CheckoutCart (db : DB) (storeID : Int) (now : Nat) (fault : GoError) :
    GoError × DB :=
  match fault with
  | some e => (some ("failed to checkout cart: " ++ e), db)
  | none => (none, { db with cart := flipStatus now storeID db.cart })

/-! ## GetCartItemsByStore -/

/-- Faults of a row query: the query itself, `rows.Next()` ending with an error after k rows
(reported by `rows.Err()`), and the `Scan` of the k-th row. -/
structure QueryFaults where
  query : GoError
  iter : Nat → GoError
  scan : Nat → GoError

/-- No statement fails. -/
def QueryFaults.none : QueryFaults :=
  { query := Option.none, iter := fun _ => Option.none, scan := fun _ => Option.none }

/-- The rows of
`SELECT p.id, p.product_name, p.price, c.quantity, p.created_at, ... FROM cart c
JOIN product_info p ON c.product_id = p.id WHERE p.store_id = $1 AND c.status = 'in_cart'`:
the product's columns with the cart line's quantity in place of the product's. SQL leaves the
row order open; the rows are listed cart line by cart line. -/
def cartJoin (db : DB) (storeID : Int) : List Product :=
  db.cart.flatMap fun c =>
    (db.product_info.filter fun p =>
        c.product_id == p.ID && p.StoreID == storeID && c.status == "in_cart").map
      fun p => { p with Quantity := c.quantity }

/-- The `for rows.Next()` loop of `GetCartItemsByStore` with the `rows.Err()` check: the
scanned products are appended to `products`; an error returns a nil slice. -/
def scanProducts (f : QueryFaults) : Nat → List Product → List Product → List Product × GoError
  | k, [], products =>
    match f.iter k with
    | some e => ([], some ("rows iteration error: " ++ e))
    | none => (products, none)
  | k, row :: rows, products =>
    match f.iter k with
    | some e => ([], some ("rows iteration error: " ++ e))
    | none =>
      match f.scan k with
      | some e => ([], some ("failed to scan product data: " ++ e))
      | none => scanProducts f (k + 1) rows (products ++ [row])

/-- `PostgresDatabase.GetCartItemsByStore`; a nil slice is the empty list. -/
def PostgresDatabase.GetCartItemsByStore (db : DB) (storeID : Int) (f : QueryFaults) :
    List Product × GoError :=
  match f.query with
  | some e => ([], some ("failed to get cart items: " ++ e))
  | none => scanProducts f 0 (cartJoin db storeID) []

/-! ## The facade `BookStore` -/

/-- `BookStore.AddToCart` passes through to the repository. -/
def BookStore.AddToCart (db : DB) (storeID productID quantity : Int) (now : Nat)
    (f : AddToCartFaults) : GoError × DB :=
  PostgresDatabase.AddToCart db storeID productID quantity now f

/-- `BookStore.GetCartItemsByStore` passes through to the repository. -/
def BookStore.GetCartItemsByStore (db : DB) (storeID : Int) (f : QueryFaults) :
    List Product × GoError :=
  PostgresDatabase.GetCartItemsByStore db storeID f

/-- `BookStore.DeleteProductFromCart` passes through to the repository. -/
def BookStore.DeleteProductFromCart (db : DB) (storeID productID : Int) (f : DeleteFaults) :
    GoError × DB :=
  PostgresDatabase.DeleteProductFromCart db storeID productID f

/-- `BookStore.Checkout` passes through to the repository. -/
def BookStore.Checkout (db : DB) (storeID : Int) (f : CheckoutFaults) : GoError × DB :=
  PostgresDatabase.Checkout db storeID f

/-- `BookStore.CheckoutCart` passes through to the repository. -/
def BookStore.CheckoutCart (db : DB) (storeID : Int) (now : Nat) (fault : GoError) :
    GoError × DB :=
  PostgresDatabase.CheckoutCart db storeID now fault

/-! ## HTTP handlers -/

/-- `strconv.Atoi` on a 64-bit platform: an optional sign, then one or more decimal digits,
and the value must fit an `int`; `none` is the error result. -/
def Atoi (s : String) : Option Int :=
  let cs := s.data
  let neg := cs.head? == some '-'
  let ds := match cs with
    | '+' :: t => t
    | '-' :: t => t
    | _ => cs
  if ds.isEmpty || !ds.all Char.isDigit then none
  else
    let n : Nat := ds.foldl (fun a c => 10 * a + (c.toNat - 48)) 0
    let v : Int := if neg then -(n : Int) else (n : Int)
    if -(2 : Int) ^ 63 ≤ v ∧ v < (2 : Int) ^ 63 then some v else none

/-- A value of a `gin.H` response object. -/
inductive JSON where
  | str (s : String)
  | int (i : Int)
  | num (x : F64)
  | products (ps : List Product)
deriving DecidableEq, Repr

/-- What `c.JSON(status, gin.H{...})` sends. -/
structure Response where
  status : Nat
  body : List (String × JSON)
deriving DecidableEq, Repr

/-- A call of a facade method made by a handler. -/
inductive RepoCall where
  | AddToCart (storeID productID quantity : Int)
  | GetCartItemsByStore (storeID : Int)
  | DeleteProductFromCart (storeID productID : Int)
  | Checkout (storeID : Int)
  | CheckoutCart (storeID : Int)
deriving DecidableEq, Repr

/-- Outcome of a handler: the response, the state of the store after it, and the facade
calls it made, in order. -/
structure HandlerResult where
  resp : Response
  db : DB
  calls : List RepoCall

/-- The response `c.JSON(status, gin.H{"error": msg})`. -/
def errorResponse (status : Nat) (msg : String) : Response :=
  { status := status, body := [("error", JSON.str msg)] }

/-- One step of the total of `BookHandlers.Checkout`:
`totalAmount += item.Price * float64(item.Quantity)`; `fused` tells whether the compiler
fused the two operations. -/
def addItem (fused : Bool) (totalAmount : F64) (item : Product) : F64 :=
  if fused then F64.fma item.Price (F64.ofInt item.Quantity) totalAmount
  else F64.add totalAmount (F64.mul item.Price (F64.ofInt item.Quantity))

/-- The loop `for _, item := range cartItems` of `BookHandlers.Checkout`, from `0.0`. -/
def totalAmount (fused : Bool) (cartItems : List Product) : F64 :=
  cartItems.foldl (addItem fused) F64.zero

/-- Faults of the two facade calls of `BookHandlers.Checkout`. -/
structure CheckoutHandlerFaults where
  fetch : QueryFaults
  flip : GoError

/-- `BookHandlers.Checkout` on the path parameter `store_id`: fetch the cart of the store,
reject an empty one, total it, simulate the payment (always successful) and flip the
status of the lines. -/
def BookHandlers.Checkout (db : DB) (storeIDStr : String) (now : Nat) (fused : Bool)
    (f : CheckoutHandlerFaults) : HandlerResult :=
  match Atoi storeIDStr with
  | none => { resp := errorResponse 400 "Invalid store ID", db := db, calls := [] }
  | some storeID =>
    match BookStore.GetCartItemsByStore db storeID f.fetch with
    | (_, some err) =>
      { resp := errorResponse 500 err, db := db, calls := [RepoCall.GetCartItemsByStore storeID] }
    | (cartItems, none) =>
      if cartItems.length = 0 then
        { resp := errorResponse 400 "No items in cart to checkout", db := db,
          calls := [RepoCall.GetCartItemsByStore storeID] }
      else
        let total := totalAmount fused cartItems
        let paymentSuccess := true
        if !paymentSuccess then
          { resp := errorResponse 402 "Payment failed", db := db,
            calls := [RepoCall.GetCartItemsByStore storeID] }
        else
          match BookStore.CheckoutCart db storeID now f.flip with
          | (some err, db1) =>
            { resp := errorResponse 500 err, db := db1,
              calls := [RepoCall.GetCartItemsByStore storeID, RepoCall.CheckoutCart storeID] }
          | (none, db1) =>
            { resp := { status := 200,
                        body := [("message", JSON.str "Checkout successful"),
                                 ("store_id", JSON.int storeID),
                                 ("total_amount", JSON.num total)] },
              db := db1,
              calls := [RepoCall.GetCartItemsByStore storeID, RepoCall.CheckoutCart storeID] }

/-- No statement fails. -/
def AddToCartFaults.none : AddToCartFaults := { select := Option.none, exec := Option.none }

/-- No statement fails. -/
def DeleteFaults.none : DeleteFaults := { exec := Option.none, rowsAffected := Option.none }

/-- No statement fails. -/
def CheckoutFaults.none : CheckoutFaults :=
  { beginTx := Option.none, query := Option.none, iter := fun _ => Option.none,
    scan := fun _ => Option.none, insert := fun _ => Option.none,
    delete := fun _ => Option.none, commit := Option.none }

/-- The `in_cart` lines of a (store, product) pair. -/
def inCartLines (cart : List CartLine) (storeID productID : Int) : List CartLine :=
  cart.filter (isInCartFor storeID productID)

/-- At most one `in_cart` line per (store, product) pair. -/
def AtMostOneInCart (cart : List CartLine) : Prop :=
  ∀ storeID productID : Int, (inCartLines cart storeID productID).length ≤ 1

/-- The columns of an order-history row other than its id. -/
def OrderHistoryEntry.columns (o : OrderHistoryEntry) : Int × Int × Int × String :=
  (o.store_id, o.product_id, o.quantity, o.status)

/-! ## More HTTP handlers -/

/-- `c.DefaultPostForm(key, defaultValue)`: the first posted value of the key when the form
has the key (`some`), the default when it has not. -/
def DefaultPostForm (posted : Option String) (defaultValue : String) : String :=
  match posted with
  | some v => v
  | none => defaultValue

/-- `BookHandlers.AddToCart` on the path parameters `store_id`, `product_id` and the posted
form field `quantity`. -/
def BookHandlers.AddToCart (db : DB) (storeIDStr productIDStr : String)
    (quantityForm : Option String) (now : Nat) (f : AddToCartFaults) : HandlerResult :=
  match Atoi storeIDStr with
  | none => { resp := errorResponse 400 "Invalid store ID", db := db, calls := [] }
  | some storeID =>
    match Atoi productIDStr with
    | none => { resp := errorResponse 400 "Invalid product ID", db := db, calls := [] }
    | some productID =>
      match Atoi (DefaultPostForm quantityForm "1") with
      | none => { resp := errorResponse 400 "Invalid quantity", db := db, calls := [] }
      | some quantity =>
        if quantity ≤ 0 then
          { resp := errorResponse 400 "Invalid quantity", db := db, calls := [] }
        else
          match BookStore.AddToCart db storeID productID quantity now f with
          | (some err, db1) =>
            { resp := errorResponse 500 err, db := db1,
              calls := [RepoCall.AddToCart storeID productID quantity] }
          | (none, db1) =>
            { resp := { status := 200,
                        body := [("message", JSON.str "Product added to cart"),
                                 ("store_id", JSON.int storeID),
                                 ("product_id", JSON.int productID),
                                 ("quantity", JSON.int quantity)] },
              db := db1,
              calls := [RepoCall.AddToCart storeID productID quantity] }

/-- `BookHandlers.GetCartItemsByStore` on the path parameter `store_id`. -/
def BookHandlers.GetCartItemsByStore (db : DB) (storeIDStr : String) (f : QueryFaults) :
    HandlerResult :=
  match Atoi storeIDStr with
  | none => { resp := errorResponse 400 "Invalid store ID", db := db, calls := [] }
  | some storeID =>
    match BookStore.GetCartItemsByStore db storeID f with
    | (_, some err) =>
      { resp := errorResponse 500 err, db := db, calls := [RepoCall.GetCartItemsByStore storeID] }
    | (products, none) =>
      if products.length = 0 then
        { resp := errorResponse 404 "No products in the cart for this store", db := db,
          calls := [RepoCall.GetCartItemsByStore storeID] }
      else
        { resp := { status := 200,
                    body := [("store_id", JSON.int storeID),
                             ("cart_items", JSON.products products)] },
          db := db, calls := [RepoCall.GetCartItemsByStore storeID] }

/-- `BookHandlers.DeleteProductFromCart` on the path parameters `store_id` and
`product_id`. -/
def BookHandlers.DeleteProductFromCart (db : DB) (storeIDStr productIDStr : String)
    (f : DeleteFaults) : HandlerResult :=
  match Atoi storeIDStr with
  | none => { resp := errorResponse 400 "Invalid store ID", db := db, calls := [] }
  | some storeID =>
    match Atoi productIDStr with
    | none => { resp := errorResponse 400 "Invalid product ID", db := db, calls := [] }
    | some productID =>
      match BookStore.DeleteProductFromCart db storeID productID f with
      | (some err, db1) =>
        { resp := errorResponse 500 err, db := db1,
          calls := [RepoCall.DeleteProductFromCart storeID productID] }
      | (none, db1) =>
        { resp := { status := 200,
                    body := [("message", JSON.str "Product removed from cart"),
                             ("store_id", JSON.int storeID),
                             ("product_id", JSON.int productID)] },
          db := db1,
          calls := [RepoCall.DeleteProductFromCart storeID productID] }

/-! ## Connection manager -/

/-- A `*sql.DB` pool handle: the data source it was opened for, its pool settings and whether
`Close` was called on it. -/
structure SqlDB where
  dsn : String
  maxOpenConns : Nat
  maxIdleConns : Nat
  connMaxLifetimeSeconds : Nat
  closed : Bool
deriving DecidableEq, Repr

/-- `db.Close()`; closing a closed handle changes nothing. -/
def SqlDB.Close (d : SqlDB) : SqlDB := { d with closed := true }

/-- The handle after a successful `sql.Open("postgres", connStr)` and
`SetMaxOpenConns(25)`, `SetMaxIdleConns(10)`, `SetConnMaxLifetime(5 * time.Minute)`. -/
def openPool (connStr : String) : SqlDB :=
  { dsn := connStr, maxOpenConns := 25, maxIdleConns := 10, connMaxLifetimeSeconds := 300,
    closed := false }

/-- The struct `PostgresDatabase`: its only field is the pool handle, a pointer that may be
nil. A `*PostgresDatabase` is an `Option PostgresDatabase`, `none` being the nil pointer. -/
structure PostgresDatabase where
  db : Option SqlDB
deriving DecidableEq, Repr

/-- The outside world at the time of a call: the error (if any) of
`sql.Open("postgres", connStr)` and of `PingContext` with the 5 second timeout on an open
handle for a data source. -/
structure World where
  sqlOpen : String → GoError
  pingContext : String → GoError

/-- How a call ends: it returns, or it panics (a nil pointer dereference). -/
inductive Outcome (α : Type) where
  | returned (a : α)
  | panicked (msg : String)
deriving DecidableEq, Repr

/-- The text of Go's nil pointer dereference panic. -/
def nilDereference : String := "runtime error: invalid memory address or nil pointer dereference"

/-- `NewPostgresDatabase`: open, configure the pool, probe; a nil manager with an error when
opening or probing fails. -/
def NewPostgresDatabase (connStr : String) (w : World) : Option PostgresDatabase × GoError :=
  match w.sqlOpen connStr with
  | some e => (none, some ("failed to connect to database: " ++ e))
  | none =>
    match w.pingContext connStr with
    | some e => (none, some ("failed to ping database: " ++ e))
    | none => (some { db := some (openPool connStr) }, none)

/-- `(*PostgresDatabase).Ping`: guarded against a nil receiver; `PingContext` on a closed
handle returns `sql: database is closed`. -/
def PostgresDatabase.Ping (pdb : Option PostgresDatabase) (w : World) : Outcome GoError :=
  match pdb with
  | none => .returned (some "database connection is not initialized")
  | some m =>
    match m.db with
    | none => .panicked nilDereference
    | some d =>
      if d.closed then .returned (some "sql: database is closed")
      else .returned (w.pingContext d.dsn)

/-- `(*PostgresDatabase).Reconnect`: reads `pdb.db` first (no guard against a nil receiver),
closes the held handle, opens and probes a new one, and stores it only when the probe
succeeded. The result is the returned error and the manager afterwards. -/
def PostgresDatabase.Reconnect (pdb : Option PostgresDatabase) (connStr : String) (w : World) :
    Outcome (GoError × PostgresDatabase) :=
  match pdb with
  | none => .panicked nilDereference
  | some m =>
    let m1 : PostgresDatabase :=
      match m.db with
      | some d => { db := some d.Close }
      | none => m
    match w.sqlOpen connStr with
    | some e => .returned (some ("failed to connect to database: " ++ e), m1)
    | none =>
      match w.pingContext connStr with
      | some e => .returned (some ("failed to ping database: " ++ e), m1)
      | none => .returned (none, { db := some (openPool connStr) })

/-- One round of the monitor goroutine of `main` after its sleep: ping, and reconnect when
the ping failed. The result is the manager afterwards, unless the goroutine panics. -/
def monitorTick (db : Option PostgresDatabase) (connStr : String) (w : World) :
    Outcome (Option PostgresDatabase) :=
  match PostgresDatabase.Ping db w with
  | .panicked msg => .panicked msg
  | .returned none => .returned db
  | .returned (some _) =>
    match PostgresDatabase.Reconnect db connStr w with
    | .panicked msg => .panicked msg
    | .returned (_, m) => .returned (some m)

/-! ## AddToCart as two statements -/

/-- The arguments of one `AddToCart` call, with the time of its insert. -/
structure AddCall where
  storeID : Int
  productID : Int
  quantity : Int
  now : Nat

/-- First statement of `AddToCart`, `SELECT quantity ... Scan`: `true` when a row was
scanned (`err == nil`), `false` for `sql.ErrNoRows`. -/
def AddCall.select (c : AddCall) (db : DB) : Bool :=
  ((db.cart.filter (isInCartFor c.storeID c.productID)).head?).isSome

/-- Second statement of `AddToCart`: the `UPDATE` when the select found a row, the `INSERT`
when it did not. -/
def AddCall.exec (c : AddCall) (found : Bool) (db : DB) : DB :=
  if found then { db with cart := updateQuantity c.quantity c.storeID c.productID db.cart }
  else insertCart db c.storeID c.productID c.quantity c.now "in_cart"

/-- Where a call stands: before its select, between its two statements (remembering what the
select saw), or returned. -/
inductive CallState where
  | start
  | selected (found : Bool)
  | done
deriving DecidableEq, Repr

/-- One statement of a call against the shared store. -/
def AddCall.step (c : AddCall) (st : CallState) (db : DB) : CallState × DB :=
  match st with
  | .start => (.selected (c.select db), db)
  | .selected found => (.done, c.exec found db)
  | .done => (.done, db)

/-- Two calls `a` and `b` in flight on one store. -/
structure TwoCalls where
  db : DB
  a : CallState
  b : CallState

/-- Run a schedule: each entry lets call `a` (`false`) or call `b` (`true`) execute its next
statement. -/
def runSchedule (ca cb : AddCall) : List Bool → TwoCalls → TwoCalls
  | [], s => s
  | false :: rest, s =>
    runSchedule ca cb rest { s with a := (ca.step s.a s.db).1, db := (ca.step s.a s.db).2 }
  | true :: rest, s =>
    runSchedule ca cb rest { s with b := (cb.step s.b s.db).1, db := (cb.step s.b s.db).2 }

/-! ## Row identity -/

/-- The `id` column identifies a cart row and was handed out by the generator: ids are
pairwise different and below the generator's next value. -/
def WellFormed (db : DB) : Prop :=
  (db.cart.map CartLine.id).Nodup ∧ ∀ l ∈ db.cart, l.id < db.cart_seq

/-! ## Exact arithmetic -/

/-- The rational number a finite `float64` stands for; `none` for an infinity or NaN. -/
def F64.toRat : F64 → Option ℚ
  | .finite neg m e => some ((if neg then -1 else 1) * (m : ℚ) * (2 : ℚ) ^ e)
  | .inf _ => none
  | .nan => none

/-- The sum over the lines of price × line quantity in exact arithmetic, as the specification
words the total; `none` when a price is not a finite number. -/
def exactTotal : List Product → Option ℚ
  | [] => some 0
  | item :: rest =>
    match item.Price.toRat, exactTotal rest with
    | some price, some total => some (price * (item.Quantity : ℚ) + total)
    | _, _ => none

/-! ## Sample states -/

/-- Product A of store 1: price 10, 40 on hand. -/
def productA : Product :=
  { ID := 10, ProductName := "A", Price := F64.ofInt 10, Quantity := 40, CreatedAt := 0,
    UpdatedAt := 0, Category := "guitar", Brand := "x", Model := "m1", StoreID := 1,
    IsRecommended := false, ImagePath := "a.png" }

/-- Product B of store 1: price 5, 30 on hand. -/
def productB : Product :=
  { ID := 11, ProductName := "B", Price := F64.ofInt 5, Quantity := 30, CreatedAt := 0,
    UpdatedAt := 0, Category := "strings", Brand := "y", Model := "m2", StoreID := 1,
    IsRecommended := true, ImagePath := "b.png" }

/-- Product C of store 2: price 20, 9 on hand. -/
def productC : Product :=
  { ID := 7, ProductName := "C", Price := F64.ofInt 20, Quantity := 9, CreatedAt := 0,
    UpdatedAt := 0, Category := "drums", Brand := "z", Model := "m3", StoreID := 2,
    IsRecommended := false, ImagePath := "c.png" }

/-- A store with the three products and the given cart; both id generators are past the
ids in use. -/
def sampleDB (cart : List CartLine) : DB :=
  { cart := cart, order_history := [], product_info := [productA, productB, productC],
    cart_seq := 100, order_seq := 100 }

/-- The cart of store 1 after the adds of the end-to-end scenario (A × 5, B × 1), next to a
line of store 2 and an older, checked-out line of store 1. -/
def sampleCart : List CartLine :=
  [ { id := 1, store_id := 1, product_id := 10, quantity := 5, added_at := 50,
      status := "in_cart", checked_out_at := none },
    { id := 2, store_id := 2, product_id := 7, quantity := 4, added_at := 51,
      status := "in_cart", checked_out_at := none },
    { id := 3, store_id := 1, product_id := 11, quantity := 1, added_at := 52,
      status := "in_cart", checked_out_at := none },
    { id := 4, store_id := 1, product_id := 10, quantity := 2, added_at := 10,
      status := "checked_out", checked_out_at := some 20 } ]

/-- A product of store 3 priced 43.28, the nearest `float64` being
`6091118496018596 * 2^-47`. -/
def productD : Product :=
  { ID := 20, ProductName := "D", Price := F64.finite false 6091118496018596 (-47),
    Quantity := 12, CreatedAt := 0, UpdatedAt := 0, Category := "pedal", Brand := "u",
    Model := "m4", StoreID := 3, IsRecommended := false, ImagePath := "d.png" }

/-- A product of store 3 priced 69.58, the nearest `float64` being
`4896257219881861 * 2^-46`. -/
def productE : Product :=
  { ID := 21, ProductName := "E", Price := F64.finite false 4896257219881861 (-46),
    Quantity := 8, CreatedAt := 0, UpdatedAt := 0, Category := "cable", Brand := "v",
    Model := "m5", StoreID := 3, IsRecommended := false, ImagePath := "e.png" }

/-- The store with products D and E and a cart of store 3 holding D × 1 and E × 5. -/
def centsDB : DB :=
  { cart := [ { id := 1, store_id := 3, product_id := 20, quantity := 1, added_at := 50,
                status := "in_cart", checked_out_at := none },
              { id := 2, store_id := 3, product_id := 21, quantity := 5, added_at := 51,
                status := "in_cart", checked_out_at := none } ],
    order_history := [], product_info := [productD, productE], cart_seq := 3, order_seq := 1 }

/-! ## Theorems -/

theorem inCartLines_append (a b : List CartLine) (s p : Int) :
    inCartLines (a ++ b) s p = inCartLines a s p ++ inCartLines b s p := by
  simp [inCartLines]

/-- The quantity update leaves the key columns of a line alone. -/
theorem isInCartFor_update (q s p s1 p1 : Int) (l : CartLine) :
    isInCartFor s1 p1 (if isInCartFor s p l then { l with quantity := l.quantity + q } else l)
      = isInCartFor s1 p1 l := by
  split <;> rfl

theorem inCartLines_updateQuantity (q s p s1 p1 : Int) (cart : List CartLine) :
    inCartLines (updateQuantity q s p cart) s1 p1
      = (inCartLines cart s1 p1).map
          (fun l => if isInCartFor s p l then { l with quantity := l.quantity + q } else l) := by
  induction cart with
  | nil => rfl
  | cons l ls ih =>
    have hl := isInCartFor_update q s p s1 p1 l
    simp only [inCartLines, updateQuantity, List.map_cons, List.filter_cons] at ih ⊢
    rw [hl]
    by_cases h : isInCartFor s1 p1 l
    · simp only [h, if_true, List.map_cons]
      rw [ih]
    · simp only [h]
      exact ih

theorem AddToCart_ok_faults (db : DB) (s p q : Int) (now : Nat) (f : AddToCartFaults)
    (h : (PostgresDatabase.AddToCart db s p q now f).1 = none) :
    f.select = none ∧ f.exec = none := by
  unfold PostgresDatabase.AddToCart at h
  cases hs : f.select <;> cases he : f.exec <;>
    cases hh : (db.cart.filter (isInCartFor s p)).head? <;> simp_all

/-- C1. With no `in_cart` line for (store, product) at the start, two successful calls
`AddToCart(store, product, q1)` and `AddToCart(store, product, q2)` in a row leave exactly one
`in_cart` line for the pair: the line the first call inserted (quantity q1, the id and time of
that insert), whose quantity the second call raised to q1 + q2. -/
theorem C1_add_twice_one_line (db : DB) (s p q1 q2 : Int) (t1 t2 : Nat)
    (f1 f2 : AddToCartFaults)
    (habsent : inCartLines db.cart s p = [])
    (h1 : (PostgresDatabase.AddToCart db s p q1 t1 f1).1 = none)
    (h2 : (PostgresDatabase.AddToCart (PostgresDatabase.AddToCart db s p q1 t1 f1).2
            s p q2 t2 f2).1 = none) :
    inCartLines (PostgresDatabase.AddToCart db s p q1 t1 f1).2.cart s p
        = [{ id := db.cart_seq, store_id := s, product_id := p, quantity := q1,
             added_at := t1, status := "in_cart", checked_out_at := none }] ∧
    inCartLines (PostgresDatabase.AddToCart (PostgresDatabase.AddToCart db s p q1 t1 f1).2
        s p q2 t2 f2).2.cart s p
        = [{ id := db.cart_seq, store_id := s, product_id := p, quantity := q1 + q2,
             added_at := t1, status := "in_cart", checked_out_at := none }] := by
  obtain ⟨hs1, he1⟩ := AddToCart_ok_faults db s p q1 t1 f1 h1
  obtain ⟨hs2, he2⟩ := AddToCart_ok_faults _ s p q2 t2 f2 h2
  have hfilter : db.cart.filter (isInCartFor s p) = [] := habsent
  have hdb1 : (PostgresDatabase.AddToCart db s p q1 t1 f1).2
      = insertCart db s p q1 t1 "in_cart" := by
    simp [PostgresDatabase.AddToCart, hs1, he1, hfilter]
  have hlines1 : inCartLines (insertCart db s p q1 t1 "in_cart").cart s p
      = [{ id := db.cart_seq, store_id := s, product_id := p, quantity := q1,
           added_at := t1, status := "in_cart", checked_out_at := none }] := by
    simp [insertCart, inCartLines_append, habsent]
    simp [inCartLines, isInCartFor, newCartLine]
  rw [hdb1]
  refine ⟨hlines1, ?_⟩
  have hfilter1 : (insertCart db s p q1 t1 "in_cart").cart.filter (isInCartFor s p)
      = [{ id := db.cart_seq, store_id := s, product_id := p, quantity := q1,
           added_at := t1, status := "in_cart", checked_out_at := none }] := hlines1
  have hdb2 : (PostgresDatabase.AddToCart (insertCart db s p q1 t1 "in_cart") s p q2 t2 f2).2.cart
      = updateQuantity q2 s p (insertCart db s p q1 t1 "in_cart").cart := by
    simp [PostgresDatabase.AddToCart, hs2, he2, hfilter1]
  rw [hdb2, inCartLines_updateQuantity, hlines1]
  simp [isInCartFor]

/-- C1 at store 1, product 7, quantities 2 and 3, on an empty cart. -/
theorem C1_add_twice_one_line_witness :
    inCartLines (PostgresDatabase.AddToCart (PostgresDatabase.AddToCart
        { cart := [], order_history := [], product_info := [], cart_seq := 0, order_seq := 0 }
        1 7 2 100 AddToCartFaults.none).2 1 7 3 101 AddToCartFaults.none).2.cart 1 7
      = [{ id := 0, store_id := 1, product_id := 7, quantity := 5, added_at := 100,
           status := "in_cart", checked_out_at := none }] :=
  (C1_add_twice_one_line
    { cart := [], order_history := [], product_info := [], cart_seq := 0, order_seq := 0 }
    1 7 2 3 100 101 AddToCartFaults.none AddToCartFaults.none (by decide) (by decide)
    (by decide)).2

/-! ### The at-most-one-line invariant -/

theorem inCartLines_sublist {a b : List CartLine} (h : a.Sublist b) (s p : Int) :
    (inCartLines a s p).length ≤ (inCartLines b s p).length :=
  (h.filter (isInCartFor s p)).length_le

theorem AtMostOneInCart_sublist {a b : List CartLine} (h : a.Sublist b)
    (hb : AtMostOneInCart b) : AtMostOneInCart a :=
  fun s p => le_trans (inCartLines_sublist h s p) (hb s p)

theorem AtMostOneInCart_updateQuantity (q s p : Int) (cart : List CartLine)
    (h : AtMostOneInCart cart) : AtMostOneInCart (updateQuantity q s p cart) := by
  intro s1 p1
  rw [inCartLines_updateQuantity, List.length_map]
  exact h s1 p1

theorem isInCartFor_iff (s p : Int) (l : CartLine) :
    isInCartFor s p l = true ↔ l.store_id = s ∧ l.product_id = p ∧ l.status = "in_cart" := by
  simp [isInCartFor, and_assoc]

theorem isInCartOfStore_iff (s : Int) (l : CartLine) :
    isInCartOfStore s l = true ↔ l.store_id = s ∧ l.status = "in_cart" := by
  simp [isInCartOfStore]

theorem AtMostOneInCart_insert (db : DB) (s p q : Int) (now : Nat)
    (habsent : inCartLines db.cart s p = []) (h : AtMostOneInCart db.cart) :
    AtMostOneInCart (insertCart db s p q now "in_cart").cart := by
  intro s1 p1
  simp only [insertCart, inCartLines_append, List.length_append]
  by_cases hkey : s = s1 ∧ p = p1
  · obtain ⟨rfl, rfl⟩ := hkey
    rw [habsent]
    simp only [inCartLines, List.length_nil, zero_add]
    exact le_trans (List.length_filter_le _ _) (by simp)
  · have hnew : inCartLines [newCartLine db.cart_seq s p q now "in_cart"] s1 p1 = [] := by
      simp only [inCartLines, List.filter_eq_nil_iff, List.mem_singleton]
      intro l hl hin
      subst hl
      rw [isInCartFor_iff] at hin
      exact hkey ⟨hin.1, hin.2.1⟩
    rw [hnew]
    simpa using h s1 p1

theorem length_filter_map_le {α : Type} (p : α → Bool) (g : α → α)
    (h : ∀ x, p (g x) = true → p x = true) (l : List α) :
    ((l.map g).filter p).length ≤ (l.filter p).length := by
  induction l with
  | nil => simp
  | cons x xs ih =>
    have hx := h x
    cases hpg : p (g x) <;> cases hpx : p x <;>
      simp [List.filter_cons, hpg, hpx] at hx ⊢ <;> omega

theorem isInCartFor_flipLine (now : Nat) (s s1 p1 : Int) (l : CartLine)
    (h : isInCartFor s1 p1 (flipLine now s l) = true) : isInCartFor s1 p1 l = true := by
  unfold flipLine at h
  split at h
  · simp [isInCartFor] at h
  · exact h

theorem inCartLines_flipStatus_le (now : Nat) (s s1 p1 : Int) (cart : List CartLine) :
    (inCartLines (flipStatus now s cart) s1 p1).length ≤ (inCartLines cart s1 p1).length :=
  length_filter_map_le (isInCartFor s1 p1) (flipLine now s)
    (fun l => isInCartFor_flipLine now s s1 p1 l) cart

/-- The loop of the migrating checkout only deletes cart lines inside the transaction, and an
error path returns the committed state. -/
theorem checkoutLoop_cart (f : CheckoutFaults) (s : Int) (rows : List (Nat × Int × Int)) :
    ∀ (k : Nat) (tx : Tx),
      match checkoutLoop f s k rows tx with
      | .error (_, db1) => db1 = tx.base
      | .ok tx1 => tx1.base = tx.base ∧ tx1.work.cart.Sublist tx.work.cart := by
  induction rows with
  | nil =>
    intro k tx
    unfold checkoutLoop
    cases f.iter k <;> simp [Tx.Rollback]
  | cons r rows ih =>
    intro k tx
    obtain ⟨cartID, productID, quantity⟩ := r
    unfold checkoutLoop
    cases f.iter k with
    | some e => simp [Tx.Rollback]
    | none =>
      cases f.scan k with
      | some e => simp [Tx.Rollback]
      | none =>
        cases f.insert k with
        | some e => simp [Tx.Rollback]
        | none =>
          cases f.delete k with
          | some e => simp [Tx.Rollback]
          | none =>
            have h := ih (k + 1)
              { base := tx.base,
                work := deleteCartById (insertOrder tx.work s productID quantity "ordered")
                  cartID }
            simp only
            revert h
            cases checkoutLoop f s (k + 1) rows
              { base := tx.base,
                work := deleteCartById (insertOrder tx.work s productID quantity "ordered")
                  cartID } with
            | error x => exact fun h => h
            | ok tx1 =>
              intro h
              refine ⟨h.1, h.2.trans ?_⟩
              simp only [deleteCartById, insertOrder]
              exact List.filter_sublist _

theorem Checkout_cart_sublist (db : DB) (s : Int) (f : CheckoutFaults) :
    (PostgresDatabase.Checkout db s f).2.cart.Sublist db.cart := by
  unfold PostgresDatabase.Checkout
  cases f.beginTx with
  | some e => simp
  | none =>
    cases f.query with
    | some e => simp [Tx.Rollback]
    | none =>
      have h := checkoutLoop_cart f s
        ((db.cart.filter (isInCartOfStore s)).map fun l => (l.id, l.product_id, l.quantity)) 0
        { base := db, work := db }
      simp only
      revert h
      cases checkoutLoop f s 0
        ((db.cart.filter (isInCartOfStore s)).map fun l => (l.id, l.product_id, l.quantity))
        { base := db, work := db } with
      | error x =>
        intro h
        simp only at h
        simp [h]
      | ok tx1 =>
        intro h
        simp only at h
        cases f.commit with
        | some e => simp [Tx.Commit, h.1]
        | none => simpa [Tx.Commit] using h.2

/-- C2. At most one `in_cart` line per (store, product) pair is an invariant: from a cart that
satisfies it, the cart after one call of `AddToCart`, `DeleteProductFromCart`, `Checkout` or
`CheckoutCart` satisfies it too, for every argument and whichever statements fail. -/
theorem C2_at_most_one_invariant (db : DB) (h : AtMostOneInCart db.cart) :
    (∀ (s p q : Int) (now : Nat) (f : AddToCartFaults),
      AtMostOneInCart (PostgresDatabase.AddToCart db s p q now f).2.cart) ∧
    (∀ (s p : Int) (f : DeleteFaults),
      AtMostOneInCart (PostgresDatabase.DeleteProductFromCart db s p f).2.cart) ∧
    (∀ (s : Int) (f : CheckoutFaults),
      AtMostOneInCart (PostgresDatabase.Checkout db s f).2.cart) ∧
    (∀ (s : Int) (now : Nat) (fault : GoError),
      AtMostOneInCart (PostgresDatabase.CheckoutCart db s now fault).2.cart) := by
  refine ⟨?_, ?_, ?_, ?_⟩
  · intro s p q now f
    unfold PostgresDatabase.AddToCart
    cases f.select with
    | some e => exact h
    | none =>
      cases hhead : (db.cart.filter (isInCartFor s p)).head? with
      | some l =>
        cases f.exec with
        | some e => exact h
        | none => exact AtMostOneInCart_updateQuantity q s p db.cart h
      | none =>
        cases f.exec with
        | some e => exact h
        | none =>
          exact AtMostOneInCart_insert db s p q now (List.head?_eq_none_iff.mp hhead) h
  · intro s p f
    have hsub : (db.cart.filter fun l => !isInCartFor s p l).Sublist db.cart :=
      List.filter_sublist _
    unfold PostgresDatabase.DeleteProductFromCart
    cases f.exec with
    | some e => exact h
    | none =>
      cases f.rowsAffected with
      | some e => exact AtMostOneInCart_sublist hsub h
      | none =>
        simp only
        split
        · exact AtMostOneInCart_sublist hsub h
        · exact AtMostOneInCart_sublist hsub h
  · intro s f
    exact AtMostOneInCart_sublist (Checkout_cart_sublist db s f) h
  · intro s now fault
    unfold PostgresDatabase.CheckoutCart
    cases fault with
    | some e => exact h
    | none => exact fun s1 p1 => le_trans (inCartLines_flipStatus_le now s s1 p1 db.cart) (h s1 p1)

/-- C2 at the sample cart, for a second add of product A to store 1. -/
theorem C2_at_most_one_invariant_witness :
    AtMostOneInCart
      (PostgresDatabase.AddToCart (sampleDB sampleCart) 1 10 3 60 AddToCartFaults.none).2.cart :=
  (C2_at_most_one_invariant (sampleDB sampleCart) (by
      intro s p
      simp only [sampleDB, sampleCart, inCartLines, isInCartFor, List.filter_cons,
        List.filter_nil]
      split_ifs <;> simp_all <;> omega)).1
    1 10 3 60 AddToCartFaults.none

/-! ### DeleteProductFromCart on an absent line -/

theorem filter_not_eq_self_of_filter_eq_nil {α : Type} (p : α → Bool) (l : List α)
    (h : l.filter p = []) : (l.filter fun x => !p x) = l := by
  rw [List.filter_eq_self]
  intro a ha
  have := (List.filter_eq_nil_iff.mp h) a ha
  simpa using this

theorem generic_ne_not_found (e : String) :
    "failed to delete product from cart: " ++ e ≠ "product not found in cart" ∧
    "failed to get affected rows: " ++ e ≠ "product not found in cart" := by
  constructor <;>
  · intro h
    have := congrArg String.data h
    simp at this

/-- C3. When the cart has no `in_cart` line for (store, product), `DeleteProductFromCart`
leaves the whole store state as it was and returns an error: `product not found in cart` when
the storage works, and that error is returned in no other case, since the errors of a failed
statement (`failed to delete product from cart: ...`, `failed to get affected rows: ...`)
are different from it. -/
theorem C3_delete_absent_not_found (db : DB) (s p : Int) (f : DeleteFaults)
    (habsent : inCartLines db.cart s p = []) :
    (PostgresDatabase.DeleteProductFromCart db s p f).2 = db ∧
    (f.exec = none → f.rowsAffected = none →
      (PostgresDatabase.DeleteProductFromCart db s p f).1 = some "product not found in cart") ∧
    (∀ e, f.exec = some e → (PostgresDatabase.DeleteProductFromCart db s p f).1
        = some ("failed to delete product from cart: " ++ e)) ∧
    (∀ e, f.exec = none → f.rowsAffected = some e →
      (PostgresDatabase.DeleteProductFromCart db s p f).1
        = some ("failed to get affected rows: " ++ e)) ∧
    ((PostgresDatabase.DeleteProductFromCart db s p f).1 = some "product not found in cart" ↔
      f.exec = none ∧ f.rowsAffected = none) := by
  have hfilter : db.cart.filter (isInCartFor s p) = [] := habsent
  have hkeep : (db.cart.filter fun l => !isInCartFor s p l) = db.cart :=
    filter_not_eq_self_of_filter_eq_nil _ _ hfilter
  unfold PostgresDatabase.DeleteProductFromCart
  cases he : f.exec with
  | some e =>
    have hne := (generic_ne_not_found e).1
    simp [hne]
  | none =>
    cases hr : f.rowsAffected with
    | some e =>
      have hne := (generic_ne_not_found e).2
      simp [hkeep, hne]
    | none => simp [hkeep, hfilter]

/-- C3 at the sample cart: store 2 has no line for product 10. -/
theorem C3_delete_absent_not_found_witness :
    (PostgresDatabase.DeleteProductFromCart (sampleDB sampleCart) 2 10 DeleteFaults.none).2
        = sampleDB sampleCart ∧
      (PostgresDatabase.DeleteProductFromCart (sampleDB sampleCart) 2 10 DeleteFaults.none).1
        = some "product not found in cart" :=
  ⟨(C3_delete_absent_not_found (sampleDB sampleCart) 2 10 DeleteFaults.none (by decide)).1,
   (C3_delete_absent_not_found (sampleDB sampleCart) 2 10 DeleteFaults.none (by decide)).2.1
     rfl rfl⟩

/-! ### Migrating checkout -/

/-- How `Checkout` ends, read off its error value. -/
theorem Checkout_cases (db : DB) (s : Int) (f : CheckoutFaults) :
    ((PostgresDatabase.Checkout db s f).1 ≠ none ∧ (PostgresDatabase.Checkout db s f).2 = db) ∨
    ((PostgresDatabase.Checkout db s f).1 = none ∧
      ∃ tx1, checkoutLoop f s 0
          ((db.cart.filter (isInCartOfStore s)).map fun l => (l.id, l.product_id, l.quantity))
          { base := db, work := db } = .ok tx1 ∧
        (PostgresDatabase.Checkout db s f).2 = tx1.work) := by
  unfold PostgresDatabase.Checkout
  cases f.beginTx with
  | some e => simp
  | none =>
    cases f.query with
    | some e => simp [Tx.Rollback]
    | none =>
      have h := checkoutLoop_cart f s
        ((db.cart.filter (isInCartOfStore s)).map fun l => (l.id, l.product_id, l.quantity)) 0
        { base := db, work := db }
      simp only
      revert h
      cases checkoutLoop f s 0
        ((db.cart.filter (isInCartOfStore s)).map fun l => (l.id, l.product_id, l.quantity))
        { base := db, work := db } with
      | error x =>
        intro h
        simp only at h
        simp [h]
      | ok tx1 =>
        intro h
        simp only at h
        cases f.commit with
        | some e => simp [Tx.Commit, h.1]
        | none => simp [Tx.Commit]

/-- C4. The migrating checkout is atomic: whenever `Checkout(store)` returns an error,
whichever step failed (begin, select, scan, an insert into `order_history`, a delete from
`cart`, the row iteration or the commit), the state of the store after the call is the state
before it: no cart line removed, no order-history row added. -/
theorem C4_checkout_atomic (db : DB) (s : Int) (f : CheckoutFaults)
    (herr : (PostgresDatabase.Checkout db s f).1 ≠ none) :
    (PostgresDatabase.Checkout db s f).2 = db ∧
    (PostgresDatabase.Checkout db s f).2.cart = db.cart ∧
    (PostgresDatabase.Checkout db s f).2.order_history = db.order_history := by
  rcases Checkout_cases db s f with h | h
  · exact ⟨h.2, by rw [h.2], by rw [h.2]⟩
  · exact absurd h.1 herr

/-- C4 at the sample cart: the insert of the second order-history row of store 1 fails. -/
theorem C4_checkout_atomic_witness :
    (PostgresDatabase.Checkout (sampleDB sampleCart) 1
        { CheckoutFaults.none with
          insert := fun k => if k = 1 then some "pq: disk full" else none }).1
      = some "failed to insert order into order_history: pq: disk full" ∧
    (PostgresDatabase.Checkout (sampleDB sampleCart) 1
        { CheckoutFaults.none with
          insert := fun k => if k = 1 then some "pq: disk full" else none }).2
      = sampleDB sampleCart :=
  ⟨by decide,
   (C4_checkout_atomic (sampleDB sampleCart) 1
      { CheckoutFaults.none with
        insert := fun k => if k = 1 then some "pq: disk full" else none } (by decide)).1⟩

/-- What a successful run of the checkout loop did inside the transaction: the cart lost the
lines with the ids of the selected rows, and the order history gained one `ordered` row per
selected row, in order. -/
theorem checkoutLoop_ok (f : CheckoutFaults) (s : Int) (rows : List (Nat × Int × Int)) :
    ∀ (k : Nat) (tx tx1 : Tx), checkoutLoop f s k rows tx = .ok tx1 →
      tx1.work.cart = tx.work.cart.filter (fun l => !(rows.map Prod.fst).contains l.id) ∧
      ∃ added, tx1.work.order_history = tx.work.order_history ++ added ∧
        added.map OrderHistoryEntry.columns
          = rows.map (fun r => (s, r.2.1, r.2.2, "ordered")) := by
  induction rows with
  | nil =>
    intro k tx tx1 h
    unfold checkoutLoop at h
    cases hi : f.iter k with
    | some e => simp [hi] at h
    | none =>
      simp only [hi, Except.ok.injEq] at h
      subst h
      exact ⟨by simp, [], by simp, rfl⟩
  | cons r rows ih =>
    intro k tx tx1 h
    obtain ⟨cartID, productID, quantity⟩ := r
    unfold checkoutLoop at h
    cases hi : f.iter k with
    | some e => simp [hi] at h
    | none =>
      cases hs : f.scan k with
      | some e => simp [hi, hs] at h
      | none =>
        cases hn : f.insert k with
        | some e => simp [hi, hs, hn] at h
        | none =>
          cases hd : f.delete k with
          | some e => simp [hi, hs, hn, hd] at h
          | none =>
            simp only [hi, hs, hn, hd] at h
            obtain ⟨hcart, added, hhist, hcols⟩ := ih (k + 1) _ tx1 h
            refine ⟨?_, ?_⟩
            · rw [hcart]
              simp only [deleteCartById, insertOrder, List.filter_filter]
              apply List.filter_congr
              intro l _
              simp only [List.map_cons, List.contains_cons]
              cases hc : (rows.map Prod.fst).contains l.id <;>
                by_cases hid : l.id = cartID <;> simp [hid, bne]
            · refine ⟨{ id := tx.work.order_seq, store_id := s, product_id := productID,
                        quantity := quantity, status := "ordered" } :: added, ?_, ?_⟩
              · rw [hhist]
                simp [deleteCartById, insertOrder]
              · simp [hcols, OrderHistoryEntry.columns]

/-- C5. When the migrating `Checkout(store)` returns nil, no line that was `in_cart` for the
store before the call is in the cart any more, and the order history is the old one followed
by exactly one new row per such line, in order, each with the given store, the product and
quantity of its line and status `ordered`. -/
theorem C5_checkout_migrates (db : DB) (s : Int) (f : CheckoutFaults)
    (hok : (PostgresDatabase.Checkout db s f).1 = none) :
    (∀ l ∈ db.cart, l.store_id = s → l.status = "in_cart" →
      l ∉ (PostgresDatabase.Checkout db s f).2.cart) ∧
    ∃ added, (PostgresDatabase.Checkout db s f).2.order_history = db.order_history ++ added ∧
      added.map OrderHistoryEntry.columns
        = (db.cart.filter (isInCartOfStore s)).map
            (fun l => (s, l.product_id, l.quantity, "ordered")) := by
  rcases Checkout_cases db s f with h | h
  · exact absurd hok h.1
  · obtain ⟨_, tx1, hloop, hdb⟩ := h
    obtain ⟨hcart, added, hhist, hcols⟩ := checkoutLoop_ok f s _ 0 _ tx1 hloop
    rw [hdb]
    refine ⟨?_, added, hhist, ?_⟩
    · intro l hl hs hst hmem
      rw [hcart] at hmem
      have hgone := (List.mem_filter.mp hmem).2
      have hin : l.id ∈ ((db.cart.filter (isInCartOfStore s)).map
          fun l => (l.id, l.product_id, l.quantity)).map Prod.fst := by
        simp only [List.map_map, List.mem_map, List.mem_filter]
        exact ⟨l, ⟨hl, (isInCartOfStore_iff s l).mpr ⟨hs, hst⟩⟩, rfl⟩
      rw [Bool.not_eq_true', ← Bool.not_eq_true, List.contains_iff_exists_mem_beq] at hgone
      exact hgone ⟨l.id, hin, by simp⟩
    · simp [hcols, List.map_map]

/-- C5 at the sample cart: the checkout of store 1 moves its two `in_cart` lines. -/
theorem C5_checkout_migrates_witness :
    (PostgresDatabase.Checkout (sampleDB sampleCart) 1 CheckoutFaults.none).2.cart
        = [ { id := 2, store_id := 2, product_id := 7, quantity := 4, added_at := 51,
              status := "in_cart", checked_out_at := none },
            { id := 4, store_id := 1, product_id := 10, quantity := 2, added_at := 10,
              status := "checked_out", checked_out_at := some 20 } ] ∧
    ∃ added, (PostgresDatabase.Checkout (sampleDB sampleCart) 1
          CheckoutFaults.none).2.order_history = (sampleDB sampleCart).order_history ++ added ∧
      added.map OrderHistoryEntry.columns = [(1, 10, 5, "ordered"), (1, 11, 1, "ordered")] :=
  ⟨by decide, (C5_checkout_migrates (sampleDB sampleCart) 1 CheckoutFaults.none (by decide)).2⟩

/-! ### Status-flip checkout -/

/-- C6. After a successful `CheckoutCart(store)` the order history is what it was, the cart
has the same number of lines, and position by position each line keeps its id, store,
product, quantity and time of adding; a line that was `in_cart` for the store now has status
`checked_out` and the call's time as its checked-out timestamp. -/
theorem C6_checkoutCart_flips (db : DB) (s : Int) (now : Nat) (fault : GoError)
    (hok : (PostgresDatabase.CheckoutCart db s now fault).1 = none) :
    (PostgresDatabase.CheckoutCart db s now fault).2.order_history = db.order_history ∧
    (PostgresDatabase.CheckoutCart db s now fault).2.cart.length = db.cart.length ∧
    ∀ (i : Nat) (l : CartLine), db.cart[i]? = some l →
      ∃ l1, (PostgresDatabase.CheckoutCart db s now fault).2.cart[i]? = some l1 ∧
        l1.id = l.id ∧ l1.store_id = l.store_id ∧ l1.product_id = l.product_id ∧
        l1.quantity = l.quantity ∧ l1.added_at = l.added_at ∧
        (l.store_id = s → l.status = "in_cart" →
          l1.status = "checked_out" ∧ l1.checked_out_at = some now) := by
  cases fault with
  | some e => simp [PostgresDatabase.CheckoutCart] at hok
  | none =>
    refine ⟨rfl, by simp [PostgresDatabase.CheckoutCart, flipStatus], ?_⟩
    intro i l hl
    refine ⟨flipLine now s l, by simp [PostgresDatabase.CheckoutCart, flipStatus, hl], ?_⟩
    unfold flipLine
    by_cases h : isInCartOfStore s l = true
    · simp [h]
    · have h1 := mt (isInCartOfStore_iff s l).mpr h
      simp only [h]
      exact ⟨rfl, rfl, rfl, rfl, rfl, fun hs hst => absurd ⟨hs, hst⟩ h1⟩

/-- C6 at the sample cart: the first line of store 1 is flipped at time 77. -/
theorem C6_checkoutCart_flips_witness :
    ∃ l1, (PostgresDatabase.CheckoutCart (sampleDB sampleCart) 1 77 none).2.cart[0]? = some l1 ∧
      l1.id = 1 ∧ l1.store_id = 1 ∧ l1.product_id = 10 ∧ l1.quantity = 5 ∧ l1.added_at = 50 ∧
      ((1 : Int) = 1 → "in_cart" = "in_cart" →
        l1.status = "checked_out" ∧ l1.checked_out_at = some 77) :=
  (C6_checkoutCart_flips (sampleDB sampleCart) 1 77 none rfl).2.2 0
    { id := 1, store_id := 1, product_id := 10, quantity := 5, added_at := 50,
      status := "in_cart", checked_out_at := none } rfl

/-! ### Listing the cart -/

theorem scanProducts_no_faults (rows : List Product) :
    ∀ (k : Nat) (products : List Product),
      scanProducts QueryFaults.none k rows products = (products ++ rows, none) := by
  induction rows with
  | nil =>
    intro k products
    have hi : QueryFaults.none.iter k = none := rfl
    simp [scanProducts, hi]
  | cons row rows ih =>
    intro k products
    have hi : QueryFaults.none.iter k = none := rfl
    have hs : QueryFaults.none.scan k = none := rfl
    simp only [scanProducts, hi, hs]
    rw [ih]
    simp

/-- Without faults the listing is the join, with a nil error. -/
theorem GetCartItemsByStore_no_faults (db : DB) (s : Int) :
    PostgresDatabase.GetCartItemsByStore db s QueryFaults.none = (cartJoin db s, none) := by
  have hq : QueryFaults.none.query = none := rfl
  simp only [PostgresDatabase.GetCartItemsByStore, hq]
  rw [scanProducts_no_faults]
  simp

/-- C7. The listing is keyed by the product's store, not by the cart line's store: after
`AddToCart(1, 7, 3)` on an empty cart, where product 7 belongs to store 2, the line (owned
by store 1) is missing from the listing of store 1 and shows up in the listing of store 2. -/
theorem C7_listing_uses_product_store :
    (PostgresDatabase.AddToCart (sampleDB []) 1 7 3 60 AddToCartFaults.none).1 = none ∧
    (PostgresDatabase.AddToCart (sampleDB []) 1 7 3 60 AddToCartFaults.none).2.cart
      = [{ id := 100, store_id := 1, product_id := 7, quantity := 3, added_at := 60,
           status := "in_cart", checked_out_at := none }] ∧
    PostgresDatabase.GetCartItemsByStore
        (PostgresDatabase.AddToCart (sampleDB []) 1 7 3 60 AddToCartFaults.none).2 1
        QueryFaults.none = ([], none) ∧
    PostgresDatabase.GetCartItemsByStore
        (PostgresDatabase.AddToCart (sampleDB []) 1 7 3 60 AddToCartFaults.none).2 2
        QueryFaults.none = ([{ productC with Quantity := 3 }], none) := by
  refine ⟨by decide, by decide, by decide, by decide⟩

/-- C8. A store without any `in_cart` line can have a non-empty listing: after
`AddToCart(2, 10, 1)` on an empty cart, where product 10 belongs to store 1, no cart line
has store 1, and `GetCartItemsByStore(1)` (also through the facade) returns one entry. -/
theorem C8_listing_nonempty_without_lines :
    (PostgresDatabase.AddToCart (sampleDB []) 2 10 1 60 AddToCartFaults.none).2.cart.filter
        (isInCartOfStore 1) = [] ∧
    PostgresDatabase.GetCartItemsByStore
        (PostgresDatabase.AddToCart (sampleDB []) 2 10 1 60 AddToCartFaults.none).2 1
        QueryFaults.none = ([{ productA with Quantity := 1 }], none) ∧
    BookStore.GetCartItemsByStore
        (PostgresDatabase.AddToCart (sampleDB []) 2 10 1 60 AddToCartFaults.none).2 1
        QueryFaults.none = ([{ productA with Quantity := 1 }], none) := by
  refine ⟨by decide, by decide, by decide⟩

/-! ### Exactness of the float64 total on whole numbers -/

theorem bitLenAux_spec : ∀ (fuel m : Nat), m ≤ fuel → 0 < m →
    2 ^ (bitLenAux fuel m - 1) ≤ m ∧ m < 2 ^ bitLenAux fuel m ∧ 0 < bitLenAux fuel m := by
  intro fuel
  induction fuel with
  | zero => intro m h1 h2; omega
  | succ fuel ih =>
    intro m hle hpos
    have hm : m ≠ 0 := by omega
    simp only [bitLenAux, hm, if_false]
    by_cases h1 : m = 1
    · subst h1
      cases fuel <;> simp [bitLenAux]
    · have hhalf : 0 < m / 2 := by omega
      obtain ⟨ha, hb, hc⟩ := ih (m / 2) (by omega) hhalf
      refine ⟨?_, ?_, by omega⟩
      · have : bitLenAux fuel (m / 2) + 1 - 1 = (bitLenAux fuel (m / 2) - 1) + 1 := by omega
        rw [this, pow_succ]
        omega
      · rw [pow_succ]
        omega

theorem bitLen_spec (m : Nat) (h : 0 < m) :
    2 ^ (bitLen m - 1) ≤ m ∧ m < 2 ^ bitLen m ∧ 0 < bitLen m :=
  bitLenAux_spec m m le_rfl h

theorem bitLen_unique (m a : Nat) (ha : 0 < a) (h1 : 2 ^ (a - 1) ≤ m) (h2 : m < 2 ^ a) :
    bitLen m = a := by
  have hm : 0 < m := lt_of_lt_of_le (by positivity) h1
  obtain ⟨hb1, hb2, hb⟩ := bitLen_spec m hm
  have h3 : 2 ^ (a - 1) < 2 ^ bitLen m := lt_of_le_of_lt h1 hb2
  have h4 : 2 ^ (bitLen m - 1) < 2 ^ a := lt_of_le_of_lt hb1 h2
  have h5 := (Nat.pow_lt_pow_iff_right (by norm_num : 1 < 2)).mp h3
  have h6 := (Nat.pow_lt_pow_iff_right (by norm_num : 1 < 2)).mp h4
  omega

theorem bitLen_mul_pow (m j : Nat) (h : 0 < m) : bitLen (m * 2 ^ j) = bitLen m + j := by
  obtain ⟨hb1, hb2, hb⟩ := bitLen_spec m h
  apply bitLen_unique
  · omega
  · have : bitLen m + j - 1 = (bitLen m - 1) + j := by omega
    rw [this, pow_add]
    exact Nat.mul_le_mul_right _ hb1
  · rw [pow_add]
    exact Nat.mul_lt_mul_of_pos_right hb2 (by positivity)

theorem bitLen_le_of_lt (m b : Nat) (h : 0 < m) (hlt : m < 2 ^ b) : bitLen m ≤ b := by
  obtain ⟨hb1, _, hb⟩ := bitLen_spec m h
  have h3 : 2 ^ (bitLen m - 1) < 2 ^ b := lt_of_le_of_lt hb1 hlt
  have h5 := (Nat.pow_lt_pow_iff_right (by norm_num : 1 < 2)).mp h3
  omega

/-- The canonical form of a positive integer below `2^53`. -/
theorem round_scaled_nat (n j : Nat) (hpos : 0 < n) (hlt : n < 2 ^ 53) :
    F64.round false (n * 2 ^ j) (-(j : Int))
      = F64.finite false (n * 2 ^ (53 - bitLen n)) ((bitLen n : Int) - 53) := by
  obtain ⟨hb1, hb2, hb⟩ := bitLen_spec n hpos
  have hb53 : bitLen n ≤ 53 := bitLen_le_of_lt n 53 hpos hlt
  have hm : n * 2 ^ j ≠ 0 := by positivity
  have hlen : bitLen (n * 2 ^ j) = bitLen n + j := bitLen_mul_pow n j hpos
  have he1 : max (-(j : Int) + ((bitLen n + j : Nat) : Int) - 53) (-1074)
      = (bitLen n : Int) - 53 := by
    rw [max_eq_left (by push_cast; omega)]
    push_cast
    omega
  unfold F64.round
  simp only [hm, if_false, hlen, he1]
  by_cases hbr : (bitLen n : Int) - 53 ≤ -(j : Int)
  · have hexp : (-(j : Int) - ((bitLen n : Int) - 53)).toNat = 53 - bitLen n - j := by omega
    have hnot : ¬ ((bitLen n : Int) - 53 > 971) := by omega
    simp only [hbr, if_true, hnot, if_false, hexp]
    congr 1
    rw [mul_assoc, ← pow_add]
    congr 2
    omega
  · have hk : ((bitLen n : Int) - 53 - -(j : Int)).toNat = j - (53 - bitLen n) := by omega
    have hjk : j = (53 - bitLen n) + (j - (53 - bitLen n)) := by omega
    have hkpos : 0 < j - (53 - bitLen n) := by omega
    simp only [hbr, if_false, hk]
    have hsplit : n * 2 ^ j = n * 2 ^ (53 - bitLen n) * 2 ^ (j - (53 - bitLen n)) := by
      rw [mul_assoc, ← pow_add, ← hjk]
    have hq : n * 2 ^ j / 2 ^ (j - (53 - bitLen n)) = n * 2 ^ (53 - bitLen n) := by
      rw [hsplit]
      exact Nat.mul_div_cancel _ (by positivity)
    have hr : n * 2 ^ j % 2 ^ (j - (53 - bitLen n)) = 0 := by
      rw [hsplit]
      exact Nat.mul_mod_left _ _
    have hhalf : 0 < 2 ^ (j - (53 - bitLen n) - 1) := by positivity
    have hnup : ¬ (2 ^ (j - (53 - bitLen n) - 1) < 0 ∨
        (0 = 2 ^ (j - (53 - bitLen n) - 1) ∧ n * 2 ^ (53 - bitLen n) % 2 = 1)) := by
      omega
    have hq53 : n * 2 ^ (53 - bitLen n) ≠ 2 ^ 53 := by
      have : n * 2 ^ (53 - bitLen n) < 2 ^ bitLen n * 2 ^ (53 - bitLen n) :=
        Nat.mul_lt_mul_of_pos_right hb2 (by positivity)
      rw [← pow_add] at this
      have h53 : bitLen n + (53 - bitLen n) = 53 := by omega
      rw [h53] at this
      omega
    have hnot : ¬ ((bitLen n : Int) - 53 > 971) := by omega
    simp only [hq, hr, hnup, if_false, hq53, hnot]

theorem natF_zero : natF 0 = F64.finite false 0 (-1074) := by
  rfl

theorem natF_pos (n : Nat) (hpos : 0 < n) (hlt : n < 2 ^ 53) :
    natF n = F64.finite false (n * 2 ^ (53 - bitLen n)) ((bitLen n : Int) - 53) := by
  have h := round_scaled_nat n 0 hpos hlt
  simp only [pow_zero, mul_one, Nat.cast_zero, neg_zero] at h
  unfold natF F64.ofInt
  have hneg : decide (((n : Nat) : Int) < 0) = false := by simp
  rw [hneg, Int.natAbs_ofNat]
  exact h

/-- Rounding an integer below `2^53`, given with any number of trailing zero bits. -/
theorem round_nat (n j : Nat) (hlt : n < 2 ^ 53) :
    F64.round false (n * 2 ^ j) (-(j : Int)) = natF n := by
  rcases Nat.eq_zero_or_pos n with h0 | hpos
  · subst h0
    simp [F64.round, natF_zero]
  · rw [round_scaled_nat n j hpos hlt, natF_pos n hpos hlt]

/-- An integer below `2^53` has the form `n * 2^j * 2^(-j)` as a `float64`. -/
theorem natF_rep (n : Nat) (hlt : n < 2 ^ 53) :
    ∃ j : Nat, natF n = F64.finite false (n * 2 ^ j) (-(j : Int)) := by
  rcases Nat.eq_zero_or_pos n with h0 | hpos
  · subst h0
    exact ⟨1074, by rw [natF_zero, Nat.zero_mul]; rfl⟩
  · refine ⟨53 - bitLen n, ?_⟩
    rw [natF_pos n hpos hlt]
    have hb53 : bitLen n ≤ 53 := bitLen_le_of_lt n 53 hpos hlt
    congr 1
    omega

theorem mul_natF (a b : Nat) (ha : a < 2 ^ 53) (hb : b < 2 ^ 53) (hab : a * b < 2 ^ 53) :
    F64.mul (natF a) (natF b) = natF (a * b) := by
  obtain ⟨j1, h1⟩ := natF_rep a ha
  obtain ⟨j2, h2⟩ := natF_rep b hb
  rw [h1, h2]
  simp only [F64.mul]
  have hm : a * 2 ^ j1 * (b * 2 ^ j2) = a * b * 2 ^ (j1 + j2) := by
    rw [pow_add]; ring
  have he : -(j1 : Int) + -(j2 : Int) = -((j1 + j2 : Nat) : Int) := by push_cast; ring
  have hs : (false != false) = false := rfl
  rw [hm, he, hs]
  exact round_nat (a * b) (j1 + j2) hab

theorem addExact_nat (x y j1 j2 : Nat) (hxy : x + y < 2 ^ 53) :
    F64.addExact false (x * 2 ^ j1) (-(j1 : Int)) false (y * 2 ^ j2) (-(j2 : Int))
      = natF (x + y) := by
  unfold F64.addExact
  have hmin : min (-(j1 : Int)) (-(j2 : Int)) = -((max j1 j2 : Nat) : Int) := by
    rcases le_total j1 j2 with h | h
    · rw [max_eq_right h, min_eq_right (by omega)]
    · rw [max_eq_left h, min_eq_left (by omega)]
  have hs1 : F64.scaled false (x * 2 ^ j1) (-(j1 : Int)) (-((max j1 j2 : Nat) : Int))
      = ((x * 2 ^ max j1 j2 : Nat) : Int) := by
    unfold F64.scaled
    have : (-(j1 : Int) - -((max j1 j2 : Nat) : Int)).toNat = max j1 j2 - j1 := by omega
    rw [this]
    simp only [Bool.false_eq_true, if_false, one_mul]
    congr 1
    rw [mul_assoc, ← pow_add]
    congr 2
    omega
  have hs2 : F64.scaled false (y * 2 ^ j2) (-(j2 : Int)) (-((max j1 j2 : Nat) : Int))
      = ((y * 2 ^ max j1 j2 : Nat) : Int) := by
    unfold F64.scaled
    have : (-(j2 : Int) - -((max j1 j2 : Nat) : Int)).toNat = max j1 j2 - j2 := by omega
    rw [this]
    simp only [Bool.false_eq_true, if_false, one_mul]
    congr 1
    rw [mul_assoc, ← pow_add]
    congr 2
    omega
  have hsum : ((x * 2 ^ max j1 j2 : Nat) : Int) + ((y * 2 ^ max j1 j2 : Nat) : Int)
      = (((x + y) * 2 ^ max j1 j2 : Nat) : Int) := by
    push_cast; ring
  simp only [hmin, hs1, hs2, hsum]
  by_cases h0 : x + y = 0
  · have hz : (((x + y) * 2 ^ max j1 j2 : Nat) : Int) = 0 := by simp [h0]
    rw [if_pos hz, h0, natF_zero]
    rfl
  · have hnz : (((x + y) * 2 ^ max j1 j2 : Nat) : Int) ≠ 0 := by
      have : 0 < (x + y) * 2 ^ max j1 j2 := by positivity
      omega
    have hneg : decide ((((x + y) * 2 ^ max j1 j2 : Nat) : Int) < 0) = false :=
      decide_eq_false (not_lt.mpr (Int.ofNat_zero_le _))
    simp only [hnz, if_false, hneg, Int.natAbs_ofNat]
    exact round_nat (x + y) (max j1 j2) hxy

theorem add_natF (x y : Nat) (hxy : x + y < 2 ^ 53) :
    F64.add (natF x) (natF y) = natF (x + y) := by
  obtain ⟨j1, h1⟩ := natF_rep x (by omega)
  obtain ⟨j2, h2⟩ := natF_rep y (by omega)
  rw [h1, h2]
  exact addExact_nat x y j1 j2 hxy

theorem fma_natF (a b c : Nat) (ha : a < 2 ^ 53) (hb : b < 2 ^ 53)
    (hsum : a * b + c < 2 ^ 53) :
    F64.fma (natF a) (natF b) (natF c) = natF (a * b + c) := by
  obtain ⟨j1, h1⟩ := natF_rep a ha
  obtain ⟨j2, h2⟩ := natF_rep b hb
  obtain ⟨j3, h3⟩ := natF_rep c (by omega)
  rw [h1, h2, h3]
  simp only [F64.fma]
  have hm : a * 2 ^ j1 * (b * 2 ^ j2) = a * b * 2 ^ (j1 + j2) := by
    rw [pow_add]; ring
  have he : -(j1 : Int) + -(j2 : Int) = -((j1 + j2 : Nat) : Int) := by push_cast; ring
  have hs : (false != false) = false := rfl
  rw [hm, he, hs]
  exact addExact_nat (a * b) c (j1 + j2) j3 hsum

theorem ofInt_natCast (n : Nat) : F64.ofInt (n : Int) = natF n := rfl

theorem ofInt_of_nonneg (q : Int) (h : 0 ≤ q) : F64.ofInt q = natF q.toNat := by
  unfold natF
  rw [Int.toNat_of_nonneg h]

theorem addItem_whole (fused : Bool) (t p : Nat) (it : Product)
    (hprice : it.Price = natF p) (hp : p < 2 ^ 53) (hq0 : 0 ≤ it.Quantity)
    (hq : it.Quantity < 2 ^ 53) (hsum : t + p * it.Quantity.toNat < 2 ^ 53) :
    addItem fused (natF t) it = natF (t + p * it.Quantity.toNat) := by
  have hqn : it.Quantity.toNat < 2 ^ 53 := by omega
  have hpq : p * it.Quantity.toNat < 2 ^ 53 := by omega
  unfold addItem
  rw [hprice, ofInt_of_nonneg it.Quantity hq0]
  cases fused with
  | false =>
    simp only [Bool.false_eq_true, if_false]
    rw [mul_natF p _ hp hqn hpq, add_natF t _ hsum]
  | true =>
    simp only [if_true]
    rw [fma_natF p _ t hp hqn (by omega), Nat.add_comm]

theorem foldl_addItem_whole (fused : Bool) (p : Product → Nat) (items : List Product) :
    ∀ t : Nat,
      (∀ it ∈ items, it.Price = natF (p it) ∧ p it < 2 ^ 53 ∧ 0 ≤ it.Quantity ∧
        it.Quantity < 2 ^ 53) →
      t + (items.map fun it => p it * it.Quantity.toNat).sum < 2 ^ 53 →
      items.foldl (addItem fused) (natF t)
        = natF (t + (items.map fun it => p it * it.Quantity.toNat).sum) := by
  induction items with
  | nil => intro t _ _; simp
  | cons it items ih =>
    intro t hall hsum
    simp only [List.map_cons, List.sum_cons] at hsum ⊢
    obtain ⟨hprice, hp, hq0, hq⟩ := hall it (List.mem_cons_self _ _)
    rw [List.foldl_cons, addItem_whole fused t (p it) it hprice hp hq0 hq (by omega)]
    rw [ih (t + p it * it.Quantity.toNat) (fun x hx => hall x (List.mem_cons_of_mem _ hx))
      (by omega)]
    congr 1
    omega

theorem sum_whole_cast (p : Product → Nat) (items : List Product)
    (h : ∀ it ∈ items, 0 ≤ it.Quantity) :
    (items.map fun it => (p it : Int) * it.Quantity).sum
      = (((items.map fun it => p it * it.Quantity.toNat).sum : Nat) : Int) := by
  induction items with
  | nil => simp
  | cons it items ih =>
    simp only [List.map_cons, List.sum_cons, Nat.cast_add, Nat.cast_mul]
    rw [ih (fun x hx => h x (List.mem_cons_of_mem _ hx)),
      Int.toNat_of_nonneg (h it (List.mem_cons_self _ _))]

/-- For whole, non-negative prices and quantities whose exact total stays below `2^53`, the
float64 total of the handler is exactly that total. -/
theorem totalAmount_whole (fused : Bool) (p : Product → Nat) (items : List Product)
    (hall : ∀ it ∈ items, it.Price = F64.ofInt (p it) ∧ p it < 2 ^ 53 ∧ 0 ≤ it.Quantity ∧
      it.Quantity < 2 ^ 53)
    (hsum : (items.map fun it => (p it : Int) * it.Quantity).sum < 2 ^ 53) :
    totalAmount fused items
      = F64.ofInt (items.map fun it => (p it : Int) * it.Quantity).sum := by
  have hcast := sum_whole_cast p items (fun it hit => (hall it hit).2.2.1)
  rw [hcast] at hsum ⊢
  have hs : (items.map fun it => p it * it.Quantity.toNat).sum < 2 ^ 53 := by
    exact_mod_cast hsum
  have h := foldl_addItem_whole fused p items 0 hall (by omega)
  rw [Nat.zero_add] at h
  exact h


theorem toRat_natF (n : Nat) (hlt : n < 2 ^ 53) : F64.toRat (natF n) = some (n : ℚ) := by
  obtain ⟨j, hj⟩ := natF_rep n hlt
  rw [hj]
  simp only [F64.toRat, Bool.false_eq_true, if_false, one_mul, Option.some.injEq]
  rw [zpow_neg, zpow_natCast]
  push_cast
  field_simp

theorem exactTotal_whole (p : Product → Nat) (items : List Product)
    (hall : ∀ it ∈ items, it.Price = F64.ofInt (p it) ∧ p it < 2 ^ 53 ∧ 0 ≤ it.Quantity ∧
      it.Quantity < 2 ^ 53) :
    exactTotal items
      = some (((items.map fun it => (p it : Int) * it.Quantity).sum : Int) : ℚ) := by
  induction items with
  | nil => simp [exactTotal]
  | cons it items ih =>
    obtain ⟨hprice, hp, _, _⟩ := hall it (List.mem_cons_self _ _)
    have hrat : it.Price.toRat = some (p it : ℚ) := by
      rw [hprice]
      exact toRat_natF (p it) hp
    simp only [exactTotal, hrat, ih (fun x hx => hall x (List.mem_cons_of_mem _ hx)),
      List.map_cons, List.sum_cons]
    push_cast
    rfl

/-- For whole, non-negative prices and quantities whose exact total stays below `2^53`, the
number the float64 total stands for is the exact sum of price × quantity. -/
theorem totalAmount_whole_exact (fused : Bool) (p : Product → Nat) (items : List Product)
    (hall : ∀ it ∈ items, it.Price = F64.ofInt (p it) ∧ p it < 2 ^ 53 ∧ 0 ≤ it.Quantity ∧
      it.Quantity < 2 ^ 53)
    (hsum : (items.map fun it => (p it : Int) * it.Quantity).sum < 2 ^ 53) :
    F64.toRat (totalAmount fused items) = exactTotal items := by
  rw [totalAmount_whole fused p items hall hsum, exactTotal_whole p items hall]
  have hcast := sum_whole_cast p items (fun it hit => (hall it hit).2.2.1)
  rw [hcast] at hsum ⊢
  have hs : (items.map fun it => p it * it.Quantity.toNat).sum < 2 ^ 53 := by
    exact_mod_cast hsum
  rw [ofInt_natCast, toRat_natF _ hs]
  rfl

/-! ### The checkout handler -/

/-- C9, as the claim states it, fails: for the fetched lines D (price 43.28, quantity 1) and
E (price 69.58, quantity 5) the handler answers 200 with `total_amount`
`6881711336854650 * 2^-44` (391.17999999999995), while the sum of price × quantity over the
fetched lines is `27526845347418603 / 2^46`; the reported number is neither that sum nor
391.18, and with a fused multiply-add the handler reports the next float64
(`6881711336854651 * 2^-44`), which is not the sum either. -/
theorem C9_total_is_not_exact_sum :
    (BookStore.GetCartItemsByStore centsDB 3 QueryFaults.none).1
      = [{ productD with Quantity := 1 }, { productE with Quantity := 5 }] ∧
    exactTotal (BookStore.GetCartItemsByStore centsDB 3 QueryFaults.none).1
      = some (27526845347418603 / 70368744177664) ∧
    (BookHandlers.Checkout centsDB "3" 77 false { fetch := QueryFaults.none, flip := none }).resp
      = { status := 200,
          body := [("message", JSON.str "Checkout successful"), ("store_id", JSON.int 3),
                   ("total_amount", JSON.num (F64.finite false 6881711336854650 (-44)))] } ∧
    F64.toRat (F64.finite false 6881711336854650 (-44))
      ≠ exactTotal (BookStore.GetCartItemsByStore centsDB 3 QueryFaults.none).1 ∧
    F64.toRat (F64.finite false 6881711336854650 (-44)) ≠ some (39118 / 100) ∧
    (BookHandlers.Checkout centsDB "3" 77 true { fetch := QueryFaults.none, flip := none }).resp
      = { status := 200,
          body := [("message", JSON.str "Checkout successful"), ("store_id", JSON.int 3),
                   ("total_amount", JSON.num (F64.finite false 6881711336854651 (-44)))] } ∧
    F64.toRat (F64.finite false 6881711336854651 (-44))
      ≠ exactTotal (BookStore.GetCartItemsByStore centsDB 3 QueryFaults.none).1 := by
  have hfetch : (BookStore.GetCartItemsByStore centsDB 3 QueryFaults.none).1
      = [{ productD with Quantity := 1 }, { productE with Quantity := 5 }] := by decide
  have hexact : exactTotal [{ productD with Quantity := 1 }, { productE with Quantity := 5 }]
      = some (27526845347418603 / 70368744177664) := by
    simp only [exactTotal, F64.toRat, productD, productE]
    norm_num
  rw [hfetch, hexact]
  refine ⟨rfl, rfl, by decide!, ?_, ?_, by decide!, ?_⟩
  · simp only [F64.toRat]
    norm_num
  · simp only [F64.toRat]
    norm_num
  · simp only [F64.toRat]
    norm_num

/-- C9, amended. When the store id parses, the fetch succeeds with a non-empty list and the
status flip succeeds, `BookHandlers.Checkout` answers 200 with `total_amount` the float64
sum, over the list fetched before the flip and in its order, of price × float64(line
quantity), each product and each partial sum rounded (or fused and rounded once), while the
state it leaves is the flipped one. For whole, non-negative prices and quantities whose
exact total is below 2^53 the float64 sum is exactly the sum of price × quantity, with or
without fusing of the multiply-add; for two fetched lines A (price 10, quantity 5) and B
(price 5, quantity 1) it is 55. -/
theorem C9_checkout_total (db : DB) (storeIDStr : String) (s : Int) (now : Nat)
    (fused : Bool) (f : CheckoutHandlerFaults)
    (hid : Atoi storeIDStr = some s)
    (hfetch : (BookStore.GetCartItemsByStore db s f.fetch).2 = none)
    (hne : (BookStore.GetCartItemsByStore db s f.fetch).1 ≠ [])
    (hflip : f.flip = none) :
    (BookHandlers.Checkout db storeIDStr now fused f).resp
      = { status := 200,
          body := [("message", JSON.str "Checkout successful"), ("store_id", JSON.int s),
                   ("total_amount", JSON.num (totalAmount fused
                      (BookStore.GetCartItemsByStore db s f.fetch).1))] } ∧
    (BookHandlers.Checkout db storeIDStr now fused f).db
      = (BookStore.CheckoutCart db s now none).2 ∧
    (BookHandlers.Checkout db storeIDStr now fused f).calls
      = [RepoCall.GetCartItemsByStore s, RepoCall.CheckoutCart s] ∧
    (∀ items : List Product, totalAmount false items
      = items.foldl (fun t item => F64.add t (F64.mul item.Price (F64.ofInt item.Quantity)))
          F64.zero) ∧
    (∀ items : List Product, totalAmount true items
      = items.foldl (fun t item => F64.fma item.Price (F64.ofInt item.Quantity) t)
          F64.zero) ∧
    (∀ (p : Product → Nat) (items : List Product),
      (∀ it ∈ items, it.Price = F64.ofInt (p it) ∧ p it < 2 ^ 53 ∧ 0 ≤ it.Quantity ∧
        it.Quantity < 2 ^ 53) →
      (items.map fun it => (p it : Int) * it.Quantity).sum < 2 ^ 53 →
      totalAmount fused items
        = F64.ofInt (items.map fun it => (p it : Int) * it.Quantity).sum ∧
      F64.toRat (totalAmount fused items) = exactTotal items ∧
      exactTotal items
        = some (((items.map fun it => (p it : Int) * it.Quantity).sum : Int) : ℚ)) ∧
    (∀ a b : Product, a.Price = F64.ofInt 10 → a.Quantity = 5 → b.Price = F64.ofInt 5 →
      b.Quantity = 1 → totalAmount fused [a, b] = F64.ofInt 55) := by
  have hrun : BookHandlers.Checkout db storeIDStr now fused f
      = { resp := { status := 200,
                    body := [("message", JSON.str "Checkout successful"),
                             ("store_id", JSON.int s),
                             ("total_amount", JSON.num (totalAmount fused
                                (BookStore.GetCartItemsByStore db s f.fetch).1))] },
          db := (BookStore.CheckoutCart db s now none).2,
          calls := [RepoCall.GetCartItemsByStore s, RepoCall.CheckoutCart s] } := by
    unfold BookHandlers.Checkout
    rw [hid]
    rcases hres : BookStore.GetCartItemsByStore db s f.fetch with ⟨items, err⟩
    rw [hres] at hfetch hne
    simp only at hfetch hne
    subst hfetch
    simp only [hres]
    simp [hne, hflip, BookStore.CheckoutCart, PostgresDatabase.CheckoutCart]
  rw [hrun]
  refine ⟨rfl, rfl, rfl, fun _ => rfl, fun _ => rfl,
    fun p items hall hsum => ⟨totalAmount_whole fused p items hall hsum,
      totalAmount_whole_exact fused p items hall hsum, exactTotal_whole p items hall⟩, ?_⟩
  · intro a b ha hqa hb hqb
    simp only [totalAmount, List.foldl_cons, List.foldl_nil, addItem, ha, hqa, hb, hqb]
    cases fused
    · decide!
    · decide!

/-- C9 at the sample cart: the checkout of store 1 (A × 5 and B × 1 in the cart) reports
55. -/
theorem C9_checkout_total_witness :
    (BookHandlers.Checkout (sampleDB sampleCart) "1" 77 false
        { fetch := QueryFaults.none, flip := none }).resp
      = { status := 200,
          body := [("message", JSON.str "Checkout successful"), ("store_id", JSON.int 1),
                   ("total_amount", JSON.num (F64.ofInt 55))] } :=
  ((C9_checkout_total (sampleDB sampleCart) "1" 1 77 false
      { fetch := QueryFaults.none, flip := none } (by decide) (by decide) (by decide) rfl).1).trans
    (by decide!)

/-- C10. When the store id parses and the fetched cart is empty, `BookHandlers.Checkout`
answers 400 with the error body `No items in cart to checkout`, its only facade call is the
fetch (neither `CheckoutCart` nor `Checkout` is called), and the state of the store is
unchanged. -/
theorem C10_checkout_empty_rejected (db : DB) (storeIDStr : String) (s : Int) (now : Nat)
    (fused : Bool) (f : CheckoutHandlerFaults)
    (hid : Atoi storeIDStr = some s)
    (hfetch : BookStore.GetCartItemsByStore db s f.fetch = ([], none)) :
    (BookHandlers.Checkout db storeIDStr now fused f).resp
      = { status := 400, body := [("error", JSON.str "No items in cart to checkout")] } ∧
    (BookHandlers.Checkout db storeIDStr now fused f).calls
      = [RepoCall.GetCartItemsByStore s] ∧
    (∀ s1, RepoCall.CheckoutCart s1 ∉ (BookHandlers.Checkout db storeIDStr now fused f).calls ∧
      RepoCall.Checkout s1 ∉ (BookHandlers.Checkout db storeIDStr now fused f).calls) ∧
    (BookHandlers.Checkout db storeIDStr now fused f).db = db := by
  have hres : BookHandlers.Checkout db storeIDStr now fused f
      = { resp := errorResponse 400 "No items in cart to checkout", db := db,
          calls := [RepoCall.GetCartItemsByStore s] } := by
    unfold BookHandlers.Checkout
    rw [hid]
    simp only [hfetch]
    simp
  rw [hres]
  refine ⟨rfl, rfl, fun s1 => ⟨by simp, by simp⟩, rfl⟩

/-- C10 at the sample products with an empty cart, for store 1. -/
theorem C10_checkout_empty_rejected_witness :
    (BookHandlers.Checkout (sampleDB []) "1" 77 false
        { fetch := QueryFaults.none, flip := none }).resp
      = { status := 400, body := [("error", JSON.str "No items in cart to checkout")] } ∧
    (BookHandlers.Checkout (sampleDB []) "1" 77 false
        { fetch := QueryFaults.none, flip := none }).db = sampleDB [] :=
  ⟨(C10_checkout_empty_rejected (sampleDB []) "1" 1 77 false
      { fetch := QueryFaults.none, flip := none } (by decide) (by decide)).1,
   (C10_checkout_empty_rejected (sampleDB []) "1" 1 77 false
      { fetch := QueryFaults.none, flip := none } (by decide) (by decide)).2.2.2⟩

/-! ### Checkout flow and the listing afterwards -/

/-- C11. A successful checkout flow can leave the listing of the store non-empty: product 10
belongs to store 1 and sits in the cart of store 2 (after `AddToCart(2, 10, 1)`); the flow
for store 1 lists and totals that line (200, total 10), its status flip for store 1 changes
no line, and `GetCartItemsByStore(1)` afterwards still returns the line. -/
theorem C11_listing_nonempty_after_checkout :
    (BookHandlers.Checkout
        (PostgresDatabase.AddToCart (sampleDB []) 2 10 1 60 AddToCartFaults.none).2
        "1" 77 false { fetch := QueryFaults.none, flip := none }).resp
      = { status := 200,
          body := [("message", JSON.str "Checkout successful"), ("store_id", JSON.int 1),
                   ("total_amount", JSON.num (F64.ofInt 10))] } ∧
    (BookHandlers.Checkout
        (PostgresDatabase.AddToCart (sampleDB []) 2 10 1 60 AddToCartFaults.none).2
        "1" 77 false { fetch := QueryFaults.none, flip := none }).db.cart
      = [{ id := 100, store_id := 2, product_id := 10, quantity := 1, added_at := 60,
           status := "in_cart", checked_out_at := none }] ∧
    PostgresDatabase.GetCartItemsByStore
        (BookHandlers.Checkout
          (PostgresDatabase.AddToCart (sampleDB []) 2 10 1 60 AddToCartFaults.none).2
          "1" 77 false { fetch := QueryFaults.none, flip := none }).db
        1 QueryFaults.none
      = ([{ productA with Quantity := 1 }], none) := by
  refine ⟨by decide!, by decide!, by decide!⟩

/-! ### Connection manager -/

/-- A manager that holds a closed handle answers every ping with an error. -/
theorem Ping_closed (d : SqlDB) (w : World) (h : d.closed = true) :
    PostgresDatabase.Ping (some { db := some d }) w
      = Outcome.returned (some "sql: database is closed") := by
  simp [PostgresDatabase.Ping, h]

/-- What `Reconnect` does on a manager that holds a handle, by the state of the world. -/
theorem Reconnect_holding (d : SqlDB) (t : String) (w : World) :
    PostgresDatabase.Reconnect (some { db := some d }) t w
      = match w.sqlOpen t with
        | some e => Outcome.returned
            (some ("failed to connect to database: " ++ e), { db := some d.Close })
        | none =>
          match w.pingContext t with
          | some e => Outcome.returned
              (some ("failed to ping database: " ++ e), { db := some d.Close })
          | none => Outcome.returned (none, { db := some (openPool t) }) := by
  simp only [PostgresDatabase.Reconnect]

/-- C12. When `Reconnect(target)` on a manager that holds a connection returns an error, the
error is `failed to connect to database: ...` (opening failed) or `failed to ping database:
...` (the probe failed), the manager holds the previous handle, now closed, every `Ping`
returns the error `sql: database is closed` whatever the state of the world, and this stays
so through any later `Reconnect` that fails as well. -/
theorem C12_reconnect_failure (d : SqlDB) (t : String) (w : World) (e : String)
    (m : PostgresDatabase)
    (hfail : PostgresDatabase.Reconnect (some { db := some d }) t w
      = Outcome.returned (some e, m)) :
    ((∃ e0, w.sqlOpen t = some e0 ∧ e = "failed to connect to database: " ++ e0) ∨
      (∃ e0, w.sqlOpen t = none ∧ w.pingContext t = some e0 ∧
        e = "failed to ping database: " ++ e0)) ∧
    m = { db := some { d with closed := true } } ∧
    (∀ w1 : World, PostgresDatabase.Ping (some m) w1
      = Outcome.returned (some "sql: database is closed")) ∧
    (∀ (t2 : String) (w2 : World) (e2 : String) (m2 : PostgresDatabase),
      PostgresDatabase.Reconnect (some m) t2 w2 = Outcome.returned (some e2, m2) →
      m2 = m ∧ ∀ w3 : World, PostgresDatabase.Ping (some m2) w3
        = Outcome.returned (some "sql: database is closed")) := by
  rw [Reconnect_holding] at hfail
  have hm : m = { db := some { d with closed := true } } ∧
      ((∃ e0, w.sqlOpen t = some e0 ∧ e = "failed to connect to database: " ++ e0) ∨
        (∃ e0, w.sqlOpen t = none ∧ w.pingContext t = some e0 ∧
          e = "failed to ping database: " ++ e0)) := by
    cases ho : w.sqlOpen t with
    | some e0 =>
      simp only [ho, Outcome.returned.injEq, Prod.mk.injEq, Option.some.injEq] at hfail
      exact ⟨hfail.2.symm, Or.inl ⟨e0, rfl, hfail.1.symm⟩⟩
    | none =>
      cases hp : w.pingContext t with
      | some e0 =>
        simp only [ho, hp, Outcome.returned.injEq, Prod.mk.injEq, Option.some.injEq] at hfail
        exact ⟨hfail.2.symm, Or.inr ⟨e0, rfl, rfl, hfail.1.symm⟩⟩
      | none => simp [ho, hp] at hfail
  obtain ⟨hm, hmsg⟩ := hm
  subst hm
  refine ⟨hmsg, rfl, fun w1 => Ping_closed _ w1 rfl, ?_⟩
  intro t2 w2 e2 m2 h2
  rw [Reconnect_holding] at h2
  have hm2 : m2 = { db := some { d with closed := true } } := by
    cases ho : w2.sqlOpen t2 with
    | some e0 =>
      simp only [ho, Outcome.returned.injEq, Prod.mk.injEq] at h2
      exact h2.2.symm
    | none =>
      cases hp : w2.pingContext t2 with
      | some e0 =>
        simp only [ho, hp, Outcome.returned.injEq, Prod.mk.injEq] at h2
        exact h2.2.symm
      | none => simp [ho, hp] at h2
  subst hm2
  exact ⟨rfl, fun w3 => Ping_closed _ w3 rfl⟩

/-- C12 for a pool opened on `db1` and a target `db2` whose probe times out. -/
theorem C12_reconnect_failure_witness :
    PostgresDatabase.Ping (some { db := some { openPool "db1" with closed := true } })
        { sqlOpen := fun _ => none, pingContext := fun _ => none }
      = Outcome.returned (some "sql: database is closed") :=
  (C12_reconnect_failure (openPool "db1") "db2"
    { sqlOpen := fun _ => none, pingContext := fun _ => some "context deadline exceeded" }
    "failed to ping database: context deadline exceeded"
    { db := some { openPool "db1" with closed := true } } (by decide)).2.2.1
    { sqlOpen := fun _ => none, pingContext := fun _ => none }

/-- C13. On a manager whose held connection has dropped (`Ping` returns an error), with a
target that can be opened and answers the probe, `Reconnect(target)` returns nil, the manager
then holds the newly opened pool for the target, and `Ping` returns nil in every state of
the world in which the target still answers. -/
theorem C13_reconnect_restores_ping (d : SqlDB) (t : String) (w : World) (e : String)
    (_hdrop : PostgresDatabase.Ping (some { db := some d }) w = Outcome.returned (some e))
    (hopen : w.sqlOpen t = none) (hprobe : w.pingContext t = none) :
    PostgresDatabase.Reconnect (some { db := some d }) t w
      = Outcome.returned (none, { db := some (openPool t) }) ∧
    (openPool t).dsn = t ∧ (openPool t).closed = false ∧
    PostgresDatabase.Ping (some { db := some (openPool t) }) w = Outcome.returned none ∧
    (∀ w1 : World, w1.pingContext t = none →
      PostgresDatabase.Ping (some { db := some (openPool t) }) w1 = Outcome.returned none) := by
  refine ⟨?_, rfl, rfl, ?_, ?_⟩
  · rw [Reconnect_holding]
    simp [hopen, hprobe]
  · simp [PostgresDatabase.Ping, openPool, hprobe]
  · intro w1 h1
    simp [PostgresDatabase.Ping, openPool, h1]

/-- C13 for a pool on `db1` whose server went away while `db2` is up. -/
theorem C13_reconnect_restores_ping_witness :
    PostgresDatabase.Reconnect (some { db := some (openPool "db1") }) "db2"
        { sqlOpen := fun _ => none,
          pingContext := fun dsn => if dsn = "db2" then none else some "connection refused" }
      = Outcome.returned (none, { db := some (openPool "db2") }) :=
  (C13_reconnect_restores_ping (openPool "db1") "db2"
    { sqlOpen := fun _ => none,
      pingContext := fun dsn => if dsn = "db2" then none else some "connection refused" }
    "connection refused" (by decide) rfl (by decide)).1

/-- C14. After a failed construction the manager is the nil pointer: `Ping` on it returns
the error `database connection is not initialized`, but `Reconnect` on it panics with a nil
pointer dereference for every target and state of the world, and so does the monitor's
round, which calls `Reconnect` after the failed `Ping`. -/
theorem C14_reconnect_on_nil_manager_panics :
    NewPostgresDatabase "db1"
        { sqlOpen := fun _ => none, pingContext := fun _ => some "connection refused" }
      = (none, some "failed to ping database: connection refused") ∧
    (∀ w : World, PostgresDatabase.Ping none w
      = Outcome.returned (some "database connection is not initialized")) ∧
    (∀ (t : String) (w : World), PostgresDatabase.Reconnect none t w
      = Outcome.panicked nilDereference) ∧
    (∀ (t : String) (w : World), monitorTick none t w = Outcome.panicked nilDereference) := by
  refine ⟨by decide, fun _ => rfl, fun _ _ => rfl, fun _ _ => rfl⟩

/-! ### Handlers of the cart routes -/

/-- C15. The add-to-cart handler: an invalid `store_id` or `product_id`, or a posted
`quantity` that is no integer or is not positive, gives 400 without any call of `AddToCart`
and with the store unchanged; without a posted `quantity` the call is made with quantity 1;
otherwise `AddToCart` is called exactly once with the parsed store, product and quantity. -/
theorem C15_add_handler_validation (db : DB) (storeIDStr productIDStr : String)
    (quantityForm : Option String) (now : Nat) (f : AddToCartFaults) :
    ((Atoi storeIDStr = none ∨ Atoi productIDStr = none ∨
        (∃ v, quantityForm = some v ∧ (Atoi v = none ∨ ∃ q, Atoi v = some q ∧ q ≤ 0))) →
      (BookHandlers.AddToCart db storeIDStr productIDStr quantityForm now f).resp.status = 400 ∧
      (BookHandlers.AddToCart db storeIDStr productIDStr quantityForm now f).calls = [] ∧
      (BookHandlers.AddToCart db storeIDStr productIDStr quantityForm now f).db = db) ∧
    (∀ s p : Int, Atoi storeIDStr = some s → Atoi productIDStr = some p →
      quantityForm = none →
      (BookHandlers.AddToCart db storeIDStr productIDStr quantityForm now f).calls
        = [RepoCall.AddToCart s p 1] ∧
      (BookHandlers.AddToCart db storeIDStr productIDStr quantityForm now f).db
        = (BookStore.AddToCart db s p 1 now f).2) ∧
    (∀ (s p q : Int) (v : String), Atoi storeIDStr = some s → Atoi productIDStr = some p →
      quantityForm = some v → Atoi v = some q → 0 < q →
      (BookHandlers.AddToCart db storeIDStr productIDStr quantityForm now f).calls
        = [RepoCall.AddToCart s p q] ∧
      (BookHandlers.AddToCart db storeIDStr productIDStr quantityForm now f).db
        = (BookStore.AddToCart db s p q now f).2) := by
  have hone : Atoi "1" = some 1 := by decide
  have hrun : ∀ s p q : Int, Atoi storeIDStr = some s → Atoi productIDStr = some p →
      Atoi (DefaultPostForm quantityForm "1") = some q → 0 < q →
      (BookHandlers.AddToCart db storeIDStr productIDStr quantityForm now f).calls
        = [RepoCall.AddToCart s p q] ∧
      (BookHandlers.AddToCart db storeIDStr productIDStr quantityForm now f).db
        = (BookStore.AddToCart db s p q now f).2 := by
    intro s p q hs hp hq hpos
    unfold BookHandlers.AddToCart
    simp only [hs, hp, hq]
    rw [if_neg (not_le.mpr hpos)]
    rcases hcall : BookStore.AddToCart db s p q now f with ⟨err, db1⟩
    cases err <;> simp
  refine ⟨?_, ?_, ?_⟩
  · intro h
    unfold BookHandlers.AddToCart
    cases hs : Atoi storeIDStr with
    | none => simp [errorResponse]
    | some s =>
      cases hp : Atoi productIDStr with
      | none => simp [errorResponse]
      | some p =>
        rcases h with h | h | ⟨v, hv, hbad⟩
        · simp [hs] at h
        · simp [hp] at h
        · subst hv
          rcases hbad with hbad | ⟨q, hq, hle⟩
          · simp [DefaultPostForm, hbad, errorResponse]
          · simp [DefaultPostForm, hq, hle, errorResponse]
  · intro s p hs hp hq
    subst hq
    exact hrun s p 1 hs hp hone (by decide)
  · intro s p q v hs hp hv hq hpos
    subst hv
    exact hrun s p q hs hp hq hpos

/-- C15 for the requests `/store/1/product/10/add_to_cart` with `quantity=0` and without a
`quantity` field. -/
theorem C15_add_handler_validation_witness :
    ((BookHandlers.AddToCart (sampleDB []) "1" "10" (some "0") 60 AddToCartFaults.none
        ).resp.status = 400 ∧
      (BookHandlers.AddToCart (sampleDB []) "1" "10" (some "0") 60 AddToCartFaults.none
        ).calls = [] ∧
      (BookHandlers.AddToCart (sampleDB []) "1" "10" (some "0") 60 AddToCartFaults.none
        ).db = sampleDB []) ∧
    (BookHandlers.AddToCart (sampleDB []) "1" "10" none 60 AddToCartFaults.none).calls
      = [RepoCall.AddToCart 1 10 1] :=
  ⟨(C15_add_handler_validation (sampleDB []) "1" "10" (some "0") 60 AddToCartFaults.none).1
      (Or.inr (Or.inr ⟨"0", rfl, Or.inr ⟨0, by decide, by decide⟩⟩)),
   ((C15_add_handler_validation (sampleDB []) "1" "10" none 60 AddToCartFaults.none).2.1
      1 10 (by decide) (by decide) rfl).1⟩

/-- C16, as the claim states it, fails: store 2 has no `in_cart` line for product 10, the
repository returns `product not found in cart`, and the handler answers 500, not 404. -/
theorem C16_not_found_is_500 :
    (PostgresDatabase.DeleteProductFromCart (sampleDB sampleCart) 2 10 DeleteFaults.none).1
      = some "product not found in cart" ∧
    (BookHandlers.DeleteProductFromCart (sampleDB sampleCart) "2" "10" DeleteFaults.none).resp
      = { status := 500, body := [("error", JSON.str "product not found in cart")] } ∧
    ¬ (BookHandlers.DeleteProductFromCart (sampleDB sampleCart) "2" "10"
        DeleteFaults.none).resp.status = 404 := by
  refine ⟨by decide, by decide, by decide⟩

/-- C16, amended. With valid identifiers the remove-from-cart handler answers 500 with the
repository's error text for every error of the repository: for not-found the body is
`product not found in cart`, for a storage failure it is one of the two `failed to ...`
texts, which differ from it; the status is 500 in both cases, and 200 when the repository
returns nil. -/
theorem C16_delete_handler_status (db : DB) (storeIDStr productIDStr : String) (s p : Int)
    (f : DeleteFaults) (hs : Atoi storeIDStr = some s) (hp : Atoi productIDStr = some p) :
    (∀ err, (BookStore.DeleteProductFromCart db s p f).1 = some err →
      (BookHandlers.DeleteProductFromCart db storeIDStr productIDStr f).resp
        = { status := 500, body := [("error", JSON.str err)] }) ∧
    ((BookStore.DeleteProductFromCart db s p f).1 = none →
      (BookHandlers.DeleteProductFromCart db storeIDStr productIDStr f).resp.status = 200) ∧
    (inCartLines db.cart s p = [] → f.exec = none → f.rowsAffected = none →
      (BookHandlers.DeleteProductFromCart db storeIDStr productIDStr f).resp
        = { status := 500, body := [("error", JSON.str "product not found in cart")] }) ∧
    (∀ e, f.exec = some e →
      (BookHandlers.DeleteProductFromCart db storeIDStr productIDStr f).resp
        = { status := 500,
            body := [("error", JSON.str ("failed to delete product from cart: " ++ e))] }) ∧
    (∀ e, f.exec = none → f.rowsAffected = some e →
      (BookHandlers.DeleteProductFromCart db storeIDStr productIDStr f).resp
        = { status := 500,
            body := [("error", JSON.str ("failed to get affected rows: " ++ e))] }) := by
  have herr : ∀ err, (BookStore.DeleteProductFromCart db s p f).1 = some err →
      (BookHandlers.DeleteProductFromCart db storeIDStr productIDStr f).resp
        = { status := 500, body := [("error", JSON.str err)] } := by
    intro err h
    unfold BookHandlers.DeleteProductFromCart
    simp only [hs, hp]
    rcases hcall : BookStore.DeleteProductFromCart db s p f with ⟨e1, db1⟩
    rw [hcall] at h
    simp only at h
    subst h
    simp [errorResponse]
  refine ⟨herr, ?_, ?_, ?_, ?_⟩
  · intro h
    unfold BookHandlers.DeleteProductFromCart
    simp only [hs, hp]
    rcases hcall : BookStore.DeleteProductFromCart db s p f with ⟨e1, db1⟩
    rw [hcall] at h
    simp only at h
    subst h
    simp
  · intro habsent he hr
    apply herr
    have hfilter : db.cart.filter (isInCartFor s p) = [] := habsent
    simp [BookStore.DeleteProductFromCart, PostgresDatabase.DeleteProductFromCart, he, hr,
      hfilter]
  · intro e he
    apply herr
    simp [BookStore.DeleteProductFromCart, PostgresDatabase.DeleteProductFromCart, he]
  · intro e he hr
    apply herr
    simp [BookStore.DeleteProductFromCart, PostgresDatabase.DeleteProductFromCart, he, hr]

/-- C16 amended, at the sample cart: removing product 10 from store 2, which has no such
line. -/
theorem C16_delete_handler_status_witness :
    (BookHandlers.DeleteProductFromCart (sampleDB sampleCart) "2" "10" DeleteFaults.none).resp
      = { status := 500, body := [("error", JSON.str "product not found in cart")] } :=
  (C16_delete_handler_status (sampleDB sampleCart) "2" "10" 2 10 DeleteFaults.none
    (by decide) (by decide)).2.2.1 (by decide) rfl rfl

/-- C17, as the claim states it, fails: with an empty cart the GET handler of store 1 answers
404 with an error body, not a success with an empty `cart_items`. -/
theorem C17_empty_cart_is_404 :
    (sampleDB []).cart = [] ∧
    (BookHandlers.GetCartItemsByStore (sampleDB []) "1" QueryFaults.none).resp
      = { status := 404,
          body := [("error", JSON.str "No products in the cart for this store")] } ∧
    ¬ (BookHandlers.GetCartItemsByStore (sampleDB []) "1" QueryFaults.none).resp.status
        = 200 := by
  refine ⟨rfl, by decide, by decide⟩

/-- C17, amended. When the store id parses and the repository returns an empty listing with
a nil error, the GET handler answers 404 with the error body `No products in the cart for
this store`, and the store is unchanged; the listing is empty in particular when the cart
has no `in_cart` line at all and no statement fails. -/
theorem C17_empty_listing_404 (db : DB) (storeIDStr : String) (s : Int) (f : QueryFaults)
    (hs : Atoi storeIDStr = some s) :
    (BookStore.GetCartItemsByStore db s f = ([], none) →
      (BookHandlers.GetCartItemsByStore db storeIDStr f).resp
        = { status := 404,
            body := [("error", JSON.str "No products in the cart for this store")] } ∧
      (BookHandlers.GetCartItemsByStore db storeIDStr f).db = db) ∧
    ((∀ l ∈ db.cart, l.status ≠ "in_cart") →
      BookStore.GetCartItemsByStore db s QueryFaults.none = ([], none)) := by
  constructor
  · intro h
    unfold BookHandlers.GetCartItemsByStore
    simp only [hs, h]
    simp [errorResponse]
  · intro h
    have hjoin : cartJoin db s = [] := by
      simp only [cartJoin, List.flatMap_eq_nil_iff, List.map_eq_nil_iff,
        List.filter_eq_nil_iff]
      intro c hc p _
      simp [h c hc]
    rw [BookStore.GetCartItemsByStore, GetCartItemsByStore_no_faults, hjoin]

/-- C17 amended, at the sample products with an empty cart. -/
theorem C17_empty_listing_404_witness :
    (BookHandlers.GetCartItemsByStore (sampleDB []) "1" QueryFaults.none).resp
      = { status := 404,
          body := [("error", JSON.str "No products in the cart for this store")] } :=
  ((C17_empty_listing_404 (sampleDB []) "1" 1 QueryFaults.none (by decide)).1
    (by decide)).1

/-! ### Removing an existing line -/

/-- C18. When the cart has an `in_cart` line for (store, product), `DeleteProductFromCart`
returns nil as soon as its statements succeed; and when it returns nil, the cart is the old
cart without the `in_cart` lines of the pair: none of them is left, every other line (other
store, other product, or another status) is still there, and the order history and the
product table are unchanged. -/
theorem C18_delete_existing_frame (db : DB) (s p : Int) (f : DeleteFaults)
    (hex : inCartLines db.cart s p ≠ []) :
    (f.exec = none → f.rowsAffected = none →
      (PostgresDatabase.DeleteProductFromCart db s p f).1 = none) ∧
    ((PostgresDatabase.DeleteProductFromCart db s p f).1 = none →
      (PostgresDatabase.DeleteProductFromCart db s p f).2.cart
        = db.cart.filter (fun l => !isInCartFor s p l) ∧
      inCartLines (PostgresDatabase.DeleteProductFromCart db s p f).2.cart s p = [] ∧
      (∀ l ∈ db.cart, (l.store_id ≠ s ∨ l.product_id ≠ p ∨ l.status ≠ "in_cart") →
        l ∈ (PostgresDatabase.DeleteProductFromCart db s p f).2.cart) ∧
      (PostgresDatabase.DeleteProductFromCart db s p f).2.order_history = db.order_history ∧
      (PostgresDatabase.DeleteProductFromCart db s p f).2.product_info = db.product_info) := by
  have hlen : (db.cart.filter (isInCartFor s p)).length ≠ 0 := by
    intro h
    exact hex (List.length_eq_zero.mp h)
  constructor
  · intro he hr
    simp [PostgresDatabase.DeleteProductFromCart, he, hr, hlen]
  · intro hok
    have hexec : f.exec = none := by
      cases he : f.exec with
      | none => rfl
      | some e => simp [PostgresDatabase.DeleteProductFromCart, he] at hok
    have hstate : (PostgresDatabase.DeleteProductFromCart db s p f).2
        = { db with cart := db.cart.filter (fun l => !isInCartFor s p l) } := by
      unfold PostgresDatabase.DeleteProductFromCart
      simp only [hexec]
      cases f.rowsAffected with
      | some e => rfl
      | none =>
        simp only
        split <;> rfl
    have hcart : (PostgresDatabase.DeleteProductFromCart db s p f).2.cart
        = db.cart.filter (fun l => !isInCartFor s p l) := by rw [hstate]
    have hhist : (PostgresDatabase.DeleteProductFromCart db s p f).2.order_history
        = db.order_history := by rw [hstate]
    have hprod : (PostgresDatabase.DeleteProductFromCart db s p f).2.product_info
        = db.product_info := by rw [hstate]
    refine ⟨hcart, ?_, ?_, hhist, hprod⟩
    · rw [hcart]
      simp only [inCartLines, List.filter_filter, List.filter_eq_nil_iff]
      intro l _
      cases isInCartFor s p l <;> simp
    · intro l hl hother
      rw [hcart, List.mem_filter]
      refine ⟨hl, ?_⟩
      have hno : ¬ isInCartFor s p l = true := by
        rw [isInCartFor_iff]
        rintro ⟨h1, h2, h3⟩
        rcases hother with h | h | h
        · exact h h1
        · exact h h2
        · exact h h3
      simp [hno]

/-- C18 at the sample cart: product 10 is removed from the cart of store 1. -/
theorem C18_delete_existing_frame_witness :
    (PostgresDatabase.DeleteProductFromCart (sampleDB sampleCart) 1 10 DeleteFaults.none).1
      = none ∧
    (PostgresDatabase.DeleteProductFromCart (sampleDB sampleCart) 1 10 DeleteFaults.none).2.cart
      = (sampleDB sampleCart).cart.filter (fun l => !isInCartFor 1 10 l) :=
  ⟨(C18_delete_existing_frame (sampleDB sampleCart) 1 10 DeleteFaults.none (by decide)).1
      rfl rfl,
   ((C18_delete_existing_frame (sampleDB sampleCart) 1 10 DeleteFaults.none (by decide)).2
      (by decide)).1⟩

/-! ### Two adds, statement by statement -/

/-- The two statements of a call, run back to back, are `AddToCart` without faults. -/
theorem AddToCart_eq_steps (c : AddCall) (db : DB) :
    PostgresDatabase.AddToCart db c.storeID c.productID c.quantity c.now AddToCartFaults.none
      = (none, c.exec (c.select db) db) := by
  have hs : AddToCartFaults.none.select = none := rfl
  have he : AddToCartFaults.none.exec = none := rfl
  unfold PostgresDatabase.AddToCart AddCall.exec AddCall.select
  simp only [hs, he]
  cases (db.cart.filter (isInCartFor c.storeID c.productID)).head? <;> simp

theorem select_of_absent (c : AddCall) (db : DB)
    (h : inCartLines db.cart c.storeID c.productID = []) : c.select db = false := by
  have hfilter : db.cart.filter (isInCartFor c.storeID c.productID) = [] := h
  simp [AddCall.select, hfilter]

theorem select_of_present (c : AddCall) (db : DB) (l : CartLine) (ls : List CartLine)
    (h : inCartLines db.cart c.storeID c.productID = l :: ls) : c.select db = true := by
  have hfilter : db.cart.filter (isInCartFor c.storeID c.productID) = l :: ls := h
  simp [AddCall.select, hfilter]

theorem inCartLines_insertCart (db : DB) (s p q : Int) (t : Nat) :
    inCartLines (insertCart db s p q t "in_cart").cart s p
      = inCartLines db.cart s p ++ [newCartLine db.cart_seq s p q t "in_cart"] := by
  simp only [insertCart, inCartLines_append]
  congr 1
  simp [inCartLines, isInCartFor, newCartLine]

/-- C19. With `AddToCart` taken as its two statements, two calls for the same (store,
product) that has no `in_cart` line can interleave as select, select, insert, insert: both
selects see no row, both calls insert, and the cart ends with two `in_cart` lines for the
pair, so the at-most-one-line invariant is broken. When the two calls run one after the
other, in either order, the result is that of two successive `AddToCart` calls: one line
with the summed quantity, and the invariant is kept. -/
theorem C19_interleaved_adds (db : DB) (ca cb : AddCall)
    (hs : cb.storeID = ca.storeID) (hp : cb.productID = ca.productID)
    (habsent : inCartLines db.cart ca.storeID ca.productID = []) :
    ((runSchedule ca cb [false, true, false, true] { db := db, a := .start, b := .start }).a
        = CallState.done ∧
      (runSchedule ca cb [false, true, false, true] { db := db, a := .start, b := .start }).b
        = CallState.done ∧
      inCartLines (runSchedule ca cb [false, true, false, true]
          { db := db, a := .start, b := .start }).db.cart ca.storeID ca.productID
        = [newCartLine db.cart_seq ca.storeID ca.productID ca.quantity ca.now "in_cart",
           newCartLine (db.cart_seq + 1) ca.storeID ca.productID cb.quantity cb.now
             "in_cart"] ∧
      ¬ AtMostOneInCart (runSchedule ca cb [false, true, false, true]
          { db := db, a := .start, b := .start }).db.cart) ∧
    ((runSchedule ca cb [false, false, true, true] { db := db, a := .start, b := .start }).db
        = (PostgresDatabase.AddToCart
            (PostgresDatabase.AddToCart db ca.storeID ca.productID ca.quantity ca.now
              AddToCartFaults.none).2
            cb.storeID cb.productID cb.quantity cb.now AddToCartFaults.none).2 ∧
      inCartLines (runSchedule ca cb [false, false, true, true]
          { db := db, a := .start, b := .start }).db.cart ca.storeID ca.productID
        = [newCartLine db.cart_seq ca.storeID ca.productID (ca.quantity + cb.quantity) ca.now
             "in_cart"] ∧
      (AtMostOneInCart db.cart → AtMostOneInCart (runSchedule ca cb [false, false, true, true]
          { db := db, a := .start, b := .start }).db.cart)) ∧
    ((runSchedule ca cb [true, true, false, false] { db := db, a := .start, b := .start }).db
        = (PostgresDatabase.AddToCart
            (PostgresDatabase.AddToCart db cb.storeID cb.productID cb.quantity cb.now
              AddToCartFaults.none).2
            ca.storeID ca.productID ca.quantity ca.now AddToCartFaults.none).2 ∧
      inCartLines (runSchedule ca cb [true, true, false, false]
          { db := db, a := .start, b := .start }).db.cart ca.storeID ca.productID
        = [newCartLine db.cart_seq ca.storeID ca.productID (cb.quantity + ca.quantity) cb.now
             "in_cart"] ∧
      (AtMostOneInCart db.cart → AtMostOneInCart (runSchedule ca cb [true, true, false, false]
          { db := db, a := .start, b := .start }).db.cart)) := by
  have habsentb : inCartLines db.cart cb.storeID cb.productID = [] := by
    rw [hs, hp]; exact habsent
  have hsa : ca.select db = false := select_of_absent ca db habsent
  have hsb : cb.select db = false := select_of_absent cb db habsentb
  -- the state after one insert
  have hlines1 : inCartLines
      (insertCart db ca.storeID ca.productID ca.quantity ca.now "in_cart").cart
      ca.storeID ca.productID
      = [newCartLine db.cart_seq ca.storeID ca.productID ca.quantity ca.now "in_cart"] := by
    rw [inCartLines_insertCart, habsent, List.nil_append]
  have hlines1b : inCartLines
      (insertCart db cb.storeID cb.productID cb.quantity cb.now "in_cart").cart
      ca.storeID ca.productID
      = [newCartLine db.cart_seq ca.storeID ca.productID cb.quantity cb.now "in_cart"] := by
    rw [hs, hp, inCartLines_insertCart, habsent, List.nil_append]
  have hsel2 : cb.select (insertCart db ca.storeID ca.productID ca.quantity ca.now "in_cart")
      = true := by
    apply select_of_present cb _ _ []
    rw [hs, hp]
    exact hlines1
  have hsel2a : ca.select (insertCart db cb.storeID cb.productID cb.quantity cb.now "in_cart")
      = true := select_of_present ca _ _ [] hlines1b
  refine ⟨⟨?_, ?_, ?_, ?_⟩, ⟨?_, ?_, ?_⟩, ⟨?_, ?_, ?_⟩⟩
  · simp [runSchedule, AddCall.step]
  · simp [runSchedule, AddCall.step]
  · simp only [runSchedule, AddCall.step, hsa, hsb, AddCall.exec, Bool.false_eq_true, if_false]
    rw [hs, hp, inCartLines_insertCart, hlines1]
    rfl
  · intro hinv
    have h2 := hinv ca.storeID ca.productID
    simp only [runSchedule, AddCall.step, hsa, hsb, AddCall.exec, Bool.false_eq_true,
      if_false] at h2
    rw [hs, hp, inCartLines_insertCart, hlines1] at h2
    simp at h2
  · simp only [runSchedule, AddCall.step]
    rw [AddToCart_eq_steps ca db, AddToCart_eq_steps cb]
  · simp only [runSchedule, AddCall.step, hsa, AddCall.exec, Bool.false_eq_true, if_false,
      hsel2, if_true]
    rw [hs, hp, inCartLines_updateQuantity, hlines1]
    simp [isInCartFor, newCartLine]
  · intro hinv
    simp only [runSchedule, AddCall.step, hsa, AddCall.exec, Bool.false_eq_true, if_false,
      hsel2, if_true]
    exact AtMostOneInCart_updateQuantity _ _ _ _
      (AtMostOneInCart_insert db _ _ _ _ habsent hinv)
  · simp only [runSchedule, AddCall.step]
    rw [AddToCart_eq_steps cb db, AddToCart_eq_steps ca]
  · simp only [runSchedule, AddCall.step, hsb, AddCall.exec, Bool.false_eq_true, if_false,
      hsel2a, if_true]
    rw [inCartLines_updateQuantity, hlines1b]
    simp [isInCartFor, newCartLine]
  · intro hinv
    simp only [runSchedule, AddCall.step, hsb, AddCall.exec, Bool.false_eq_true, if_false,
      hsel2a, if_true]
    exact AtMostOneInCart_updateQuantity _ _ _ _
      (AtMostOneInCart_insert db _ _ _ _ habsentb hinv)

/-- C19 for two adds of product 7 to store 1 (quantities 2 and 3) on an empty cart. -/
theorem C19_interleaved_adds_witness :
    inCartLines (runSchedule
        { storeID := 1, productID := 7, quantity := 2, now := 60 }
        { storeID := 1, productID := 7, quantity := 3, now := 61 }
        [false, true, false, true] { db := sampleDB [], a := .start, b := .start }).db.cart 1 7
      = [newCartLine 100 1 7 2 60 "in_cart", newCartLine 101 1 7 3 61 "in_cart"] :=
  (C19_interleaved_adds (sampleDB [])
    { storeID := 1, productID := 7, quantity := 2, now := 60 }
    { storeID := 1, productID := 7, quantity := 3, now := 61 } rfl rfl (by decide)).1.2.2.1

/-! ### Row identity and the frame of the checkouts -/

theorem id_updateQuantity (q s p : Int) (cart : List CartLine) :
    (updateQuantity q s p cart).map CartLine.id = cart.map CartLine.id := by
  simp only [updateQuantity, List.map_map]
  apply List.map_congr_left
  intro l _
  simp only [Function.comp]
  split <;> rfl

theorem id_flipStatus (now : Nat) (s : Int) (cart : List CartLine) :
    (flipStatus now s cart).map CartLine.id = cart.map CartLine.id := by
  simp only [flipStatus, List.map_map]
  apply List.map_congr_left
  intro l _
  simp only [Function.comp, flipLine]
  split <;> rfl

theorem WellFormed_of_sublist (db db1 : DB) (hsub : db1.cart.Sublist db.cart)
    (hseq : db1.cart_seq = db.cart_seq) (h : WellFormed db) : WellFormed db1 := by
  refine ⟨(hsub.map CartLine.id).nodup h.1, ?_⟩
  intro l hl
  rw [hseq]
  exact h.2 l (hsub.subset hl)

theorem WellFormed_of_ids (db db1 : DB)
    (hids : db1.cart.map CartLine.id = db.cart.map CartLine.id)
    (hseq : db1.cart_seq = db.cart_seq) (h : WellFormed db) : WellFormed db1 := by
  refine ⟨by rw [hids]; exact h.1, ?_⟩
  intro l hl
  have hmem : l.id ∈ db.cart.map CartLine.id := by
    rw [← hids]
    exact List.mem_map_of_mem _ hl
  obtain ⟨l0, hl0, hid⟩ := List.mem_map.mp hmem
  rw [hseq, ← hid]
  exact h.2 l0 hl0

theorem WellFormed_insertCart (db : DB) (s p q : Int) (t : Nat) (status : String)
    (h : WellFormed db) : WellFormed (insertCart db s p q t status) := by
  constructor
  · simp only [insertCart, List.map_append, List.map_cons, List.map_nil, newCartLine]
    rw [List.nodup_append]
    refine ⟨h.1, by simp, ?_⟩
    intro a ha hb
    rw [List.mem_singleton] at hb
    obtain ⟨l0, hl0, hid⟩ := List.mem_map.mp ha
    have := h.2 l0 hl0
    omega
  · intro l hl
    simp only [insertCart, List.mem_append, List.mem_singleton] at hl ⊢
    rcases hl with hl | hl
    · have := h.2 l hl
      omega
    · subst hl
      simp [newCartLine]

/-- The checkout loop leaves the id generator of the cart alone. -/
theorem checkoutLoop_cart_seq (f : CheckoutFaults) (s : Int) (rows : List (Nat × Int × Int)) :
    ∀ (k : Nat) (tx tx1 : Tx), checkoutLoop f s k rows tx = .ok tx1 →
      tx1.work.cart_seq = tx.work.cart_seq := by
  induction rows with
  | nil =>
    intro k tx tx1 h
    unfold checkoutLoop at h
    cases hi : f.iter k with
    | some e => simp [hi] at h
    | none =>
      simp only [hi, Except.ok.injEq] at h
      rw [h]
  | cons r rows ih =>
    intro k tx tx1 h
    obtain ⟨cartID, productID, quantity⟩ := r
    unfold checkoutLoop at h
    cases hi : f.iter k with
    | some e => simp [hi] at h
    | none =>
      cases hs : f.scan k with
      | some e => simp [hi, hs] at h
      | none =>
        cases hn : f.insert k with
        | some e => simp [hi, hs, hn] at h
        | none =>
          cases hd : f.delete k with
          | some e => simp [hi, hs, hn, hd] at h
          | none =>
            simp only [hi, hs, hn, hd] at h
            rw [ih (k + 1) _ tx1 h]
            rfl

/-- Ids stay pairwise different and below the generator through every cart operation,
whichever statements fail. -/
theorem WellFormed_preserved (db : DB) (h : WellFormed db) :
    (∀ (s p q : Int) (now : Nat) (f : AddToCartFaults),
      WellFormed (PostgresDatabase.AddToCart db s p q now f).2) ∧
    (∀ (s p : Int) (f : DeleteFaults),
      WellFormed (PostgresDatabase.DeleteProductFromCart db s p f).2) ∧
    (∀ (s : Int) (f : CheckoutFaults), WellFormed (PostgresDatabase.Checkout db s f).2) ∧
    (∀ (s : Int) (now : Nat) (fault : GoError),
      WellFormed (PostgresDatabase.CheckoutCart db s now fault).2) := by
  refine ⟨?_, ?_, ?_, ?_⟩
  · intro s p q now f
    unfold PostgresDatabase.AddToCart
    cases f.select with
    | some e => exact h
    | none =>
      cases (db.cart.filter (isInCartFor s p)).head? with
      | some l =>
        cases f.exec with
        | some e => exact h
        | none => exact WellFormed_of_ids db _ (id_updateQuantity q s p db.cart) rfl h
      | none =>
        cases f.exec with
        | some e => exact h
        | none => exact WellFormed_insertCart db s p q now "in_cart" h
  · intro s p f
    have hdel : WellFormed { db with cart := db.cart.filter fun l => !isInCartFor s p l } :=
      WellFormed_of_sublist db _ (List.filter_sublist _) rfl h
    unfold PostgresDatabase.DeleteProductFromCart
    cases f.exec with
    | some e => exact h
    | none =>
      cases f.rowsAffected with
      | some e => exact hdel
      | none =>
        simp only
        split
        · exact hdel
        · exact hdel
  · intro s f
    rcases Checkout_cases db s f with hc | hc
    · rw [hc.2]
      exact h
    · obtain ⟨_, tx1, hloop, hdb⟩ := hc
      refine WellFormed_of_sublist db _ (Checkout_cart_sublist db s f) ?_ h
      rw [hdb]
      exact checkoutLoop_cart_seq f s _ 0 _ tx1 hloop
  · intro s now fault
    unfold PostgresDatabase.CheckoutCart
    cases fault with
    | some e => exact h
    | none => exact WellFormed_of_ids db _ (id_flipStatus now s db.cart) rfl h

/-- C20. Both checkouts touch only the `in_cart` lines of their store: a line of another
store, or a line that is not `in_cart` (so every line that is already `checked_out`), is in
the cart after `Checkout(s)` and after `CheckoutCart(s)` exactly as it was, whether the call
succeeds or fails. The migrating checkout, which deletes by id, leaves the list of those
lines as it was when the ids identify the rows of the cart; the status flip leaves each of
them at its position. -/
theorem C20_checkout_frame (db : DB) (s : Int) :
    (WellFormed db → ∀ (f : CheckoutFaults) (l : CartLine), l ∈ db.cart →
      (l.store_id ≠ s ∨ l.status ≠ "in_cart") →
      l ∈ (PostgresDatabase.Checkout db s f).2.cart) ∧
    (WellFormed db → ∀ f : CheckoutFaults,
      (PostgresDatabase.Checkout db s f).2.cart.filter (fun l => !isInCartOfStore s l)
        = db.cart.filter (fun l => !isInCartOfStore s l)) ∧
    (∀ (now : Nat) (fault : GoError) (l : CartLine), l ∈ db.cart →
      (l.store_id ≠ s ∨ l.status ≠ "in_cart") →
      l ∈ (PostgresDatabase.CheckoutCart db s now fault).2.cart) ∧
    (∀ (now : Nat) (fault : GoError) (i : Nat) (l : CartLine), db.cart[i]? = some l →
      (l.store_id ≠ s ∨ l.status ≠ "in_cart") →
      (PostgresDatabase.CheckoutCart db s now fault).2.cart[i]? = some l) := by
  have hnot : ∀ l : CartLine, (l.store_id ≠ s ∨ l.status ≠ "in_cart") →
      isInCartOfStore s l = false := by
    intro l hl
    cases hb : isInCartOfStore s l with
    | false => rfl
    | true =>
      obtain ⟨h1, h2⟩ := (isInCartOfStore_iff s l).mp hb
      rcases hl with hl | hl
      · exact absurd h1 hl
      · exact absurd h2 hl
  have hfilter : WellFormed db → ∀ f : CheckoutFaults,
      (PostgresDatabase.Checkout db s f).2.cart.filter (fun l => !isInCartOfStore s l)
        = db.cart.filter (fun l => !isInCartOfStore s l) := by
    intro hwf f
    rcases Checkout_cases db s f with hc | hc
    · rw [hc.2]
    · obtain ⟨_, tx1, hloop, hdb⟩ := hc
      obtain ⟨hcart, _⟩ := checkoutLoop_ok f s _ 0 _ tx1 hloop
      rw [hdb, hcart, List.filter_filter]
      apply List.filter_congr
      intro l hl
      cases hsel : isInCartOfStore s l with
      | true => simp
      | false =>
        have hid : ¬ l.id ∈ ((db.cart.filter (isInCartOfStore s)).map
            fun l => (l.id, l.product_id, l.quantity)).map Prod.fst := by
          simp only [List.map_map, List.mem_map, List.mem_filter]
          rintro ⟨l2, ⟨hl2, hsel2⟩, hid2⟩
          have heq : l2 = l :=
            List.inj_on_of_nodup_map hwf.1 hl2 hl hid2
          rw [heq, hsel] at hsel2
          exact Bool.false_ne_true hsel2
        have hc : (((db.cart.filter (isInCartOfStore s)).map
            fun l => (l.id, l.product_id, l.quantity)).map Prod.fst).contains l.id = false := by
          rw [← Bool.not_eq_true, List.contains_iff_exists_mem_beq]
          rintro ⟨a, ha, hb⟩
          have : l.id = a := by simpa using hb
          exact hid (this ▸ ha)
        simp only [hc, Bool.not_false, Bool.and_self]
  have hflipLine : ∀ (now : Nat) (l : CartLine), (l.store_id ≠ s ∨ l.status ≠ "in_cart") →
      flipLine now s l = l := by
    intro now l hl
    simp [flipLine, hnot l hl]
  have hpos : ∀ (now : Nat) (fault : GoError) (i : Nat) (l : CartLine),
      db.cart[i]? = some l → (l.store_id ≠ s ∨ l.status ≠ "in_cart") →
      (PostgresDatabase.CheckoutCart db s now fault).2.cart[i]? = some l := by
    intro now fault i l hi hl
    unfold PostgresDatabase.CheckoutCart
    cases fault with
    | some e => exact hi
    | none => simp [flipStatus, hi, hflipLine now l hl]
  refine ⟨?_, hfilter, ?_, hpos⟩
  · intro hwf f l hl hframe
    have hmem : l ∈ db.cart.filter (fun l => !isInCartOfStore s l) := by
      rw [List.mem_filter]
      exact ⟨hl, by simp [hnot l hframe]⟩
    rw [← hfilter hwf f] at hmem
    exact (List.mem_filter.mp hmem).1
  · intro now fault l hl hframe
    obtain ⟨i, hi⟩ := List.mem_iff_getElem?.mp hl
    exact List.mem_iff_getElem?.mpr ⟨i, hpos now fault i l hi hframe⟩

/-- C20 at the sample cart: the line of store 2 and the checked-out line of store 1 survive
the migrating checkout of store 1. -/
theorem C20_checkout_frame_witness :
    (PostgresDatabase.Checkout (sampleDB sampleCart) 1 CheckoutFaults.none).2.cart.filter
        (fun l => !isInCartOfStore 1 l)
      = [ { id := 2, store_id := 2, product_id := 7, quantity := 4, added_at := 51,
            status := "in_cart", checked_out_at := none },
          { id := 4, store_id := 1, product_id := 10, quantity := 2, added_at := 10,
            status := "checked_out", checked_out_at := some 20 } ] :=
  ((C20_checkout_frame (sampleDB sampleCart) 1).2.1 ⟨by decide, by decide⟩
    CheckoutFaults.none).trans (by decide)

/-- The hypothesis on the ids is needed for the migrating checkout: were two rows of
different stores to share an id, the checkout of one store would delete the other store's
row as well. -/
theorem Checkout_frame_needs_ids :
    (PostgresDatabase.Checkout
        (sampleDB [newCartLine 1 1 10 5 50 "in_cart", newCartLine 1 2 7 4 51 "in_cart"])
        1 CheckoutFaults.none).2.cart = [] := by
  decide

/-- A store without cart lines is well formed. -/
theorem WellFormed_empty (products : List Product) (n k : Nat) :
    WellFormed { cart := [], order_history := [], product_info := products, cart_seq := n,
                 order_seq := k } :=
  ⟨List.nodup_nil, fun _ h => absurd h (List.not_mem_nil _)⟩

end Musicstore
